import Mathlib

/-!
# Verification of the asset-backed resource binding engine (`ModelComponent`)

A shallow embedding of `pc.ModelComponent` (src/unnamed/part_000) and proofs
about its property setters: the model hot-swap path, the model-asset reference
path, the material mapping resolver, the material-event subscription ledger,
and the scene-membership consequences of the cast-shadow and batch-group
setters.

The component's mutable world (the component fields, the owning entity's
child list, the scene's draw/shadow-caster sets, the asset registry with its
event subscriptions, and the heap of live `pc.Model` objects) is modelled as
one explicit state record `St`; each JS property setter becomes a pure
function `St → St` (the `type` setter, which can throw, returns `Except`).
Models and resources are identified by numeric handles so that object
identity (what the scene sets and `===` comparisons are keyed by) is explicit.
-/

set_option linter.unusedVariables false

deriving instance DecidableEq for Except

namespace EngineModel

/-- A render material value. `defaultMat` is the process-wide default
(`pc.ModelHandler.DEFAULT_MATERIAL`); `res n` is the resource payload of a
catalog entry, identified by its payload handle `n` (JS compares resources by
object identity, which the handle stands for); `raw n` is any other material
object (e.g. one that came with a loaded model). -/
inductive Material where
  | defaultMat
  | res (payload : Nat)
  | raw (n : Nat)
deriving DecidableEq, Repr

/-- One `pc.MeshInstance`. `mask`/`shaderDefsLM`/`lightMapParams` model the
fields touched by the `lightmapped` setter (the `_shaderDefs` bit-clear of
`SHADERDEF_LM` is modelled as the single boolean bit it touches, and the two
`deleteParameter` calls as the presence flag of those parameters). -/
structure MeshInstance where
  castShadow : Bool
  receiveShadow : Bool
  material : Material
  visible : Bool
  isStatic : Bool
  mask : Nat
  shaderDefsLM : Bool
  lightMapParams : Bool
  /-- geometry handle (`system.box` etc.), identified by name -/
  srcMesh : String
deriving DecidableEq, Repr

/-- `pc.MASK_DYNAMIC` -/
def MASK_DYNAMIC : Nat := 1
/-- `pc.MASK_BAKED` -/
def MASK_BAKED : Nat := 2

/-- A catalog entry's resolved resource payload: an opaque payload handle
plus, for model resources, the mesh data that `clone()` copies into a fresh
`pc.Model`. (Material resources simply carry an empty mesh list.) -/
structure Res where
  payload : Nat
  meshes : List MeshInstance
deriving DecidableEq, Repr

/-- A live `pc.Model` object: identity, root graph node, mesh instances and
the mutable `_entity` back-reference written by the `model` setter. -/
structure PcModel where
  id : Nat
  graph : Nat
  meshInstances : List MeshInstance
  entityRef : Option Nat
deriving DecidableEq, Repr

/-- One entry of a model asset's `data.mapping` table: an optional material
asset id and an optional path (`none` models a missing/falsy field). -/
structure AMapEntry where
  material : Option Nat
  path : Option String
deriving DecidableEq, Repr

/-- The handlers this component registers on the asset registry or on asset
objects. Bound methods are fixed per component; each anonymous closure
created inside `_loadAndSetMeshInstanceMaterial` is a fresh function object,
modelled by a fresh `closure n` tag drawn from the state's counter. -/
inductive Handler where
  | onModelAsset
  | onAssetLoad
  | onAssetUnload
  | onAssetChange
  | onAssetRemove
  | onMaterialAssetLoad
  | onMaterialAssetUnload
  | onMaterialAssetRemove
  | onMaterialAssetAdd
  | closure (n : Nat)
deriving DecidableEq, Repr

/-- A catalog entry (`pc.Asset`): id, resolved resource (if loaded), the
`data.mapping` table of a model asset, its file URL, and the event handlers
subscribed directly on this asset object (`asset.on('load', ...)` etc.). -/
structure Asset where
  id : Nat
  resource : Option Res
  dataMapping : Option (List (Nat × AMapEntry))
  fileUrl : String
  subs : List (String × Handler)
deriving DecidableEq, Repr

/-- A registry-level subscription (`assets.on` / `assets.once`). -/
structure Sub where
  key : String
  handler : Handler
  once : Bool
deriving DecidableEq, Repr

/-- The asset registry: catalog entries, registry-level event subscriptions,
and the trace of `assets.load` calls. -/
structure Assets where
  entries : List Asset
  subs : List Sub
  loadCalls : List Nat
deriving DecidableEq, Repr

/-- The render scene's membership sets. Modelled from the spec: `pc.Scene`
is an external collaborator (§6) offering "idempotent membership operations
keyed by instance identity" (`addModel`, `removeModel`, `containsModel`,
`addShadowCaster`, `removeShadowCaster`). Members are model identities;
`none` is the `null` value the component can pass. `addModelCalls` records
every invocation of `addModel` (with its argument), observed at the
boundary. -/
structure Scene where
  drawn : List (Option Nat)
  shadowCasters : List (Option Nat)
  addModelCalls : List (Option Nat)
deriving DecidableEq, Repr

/-- A record stored in the `_materialEvents` ledger:
`{ id: id, handler: handler }`. -/
structure MatEvt where
  id : String
  handler : Handler
deriving DecidableEq, Repr

/-- The `_materialEvents` ledger: per mesh index, a dictionary from full
event key (`event + ':' + id`) to the stored record. -/
abbrev Ledger := List (Nat × List (String × MatEvt))

/-- A value assigned to the `asset` / `materialAsset` properties:
a numeric asset id, an asset object, or `null`. -/
inductive AssetVal where
  | num (n : Nat)
  | obj (a : Asset)
  | null
deriving DecidableEq, Repr

/-- A mapping-table entry value: a numeric asset id or a path-like string
(a string whose `parseInt` is `NaN`, i.e. not starting with digits). -/
inductive IdOrPath where
  | id (n : Nat)
  | path (s : String)
deriving DecidableEq, Repr

/-- The `mapping` property value: per mesh index, either absent
(`undefined`), present-but-falsy (`some none`, e.g. `null`) or an
id-or-path reference. -/
abbrev MapTable := List (Nat × Option IdOrPath)

/-- The whole mutable world of one `ModelComponent`: the component's own
fields (named as in the source), the owning entity's state, the heap of live
model objects, the scene, the asset registry, the trace of destroyed model
identities, and a fresh-handle counter for newly constructed objects. -/
structure St where
  _type : String
  _asset : Option Nat
  _castShadows : Bool
  _receiveShadows : Bool
  _materialAsset : AssetVal
  _mapping : Option MapTable
  _batchGroupId : Int
  _material : Material
  _model : Option Nat
  _assetOld : Nat
  _materialEvents : Option Ledger
  _dirtyModelAsset : Bool
  _dirtyMaterialAsset : Bool
  _clonedModel : Bool
  _lightmapped : Bool
  _isStatic : Bool
  /-- the shape tag of the `_area` table set by the `type` setter (the
  numeric area values involve `π` and are irrelevant to every claim) -/
  _area : Option String
  enabled : Bool
  entityId : Nat
  entityEnabled : Bool
  entityChildren : List Nat
  hasAnimation : Bool
  /-- trace of `entity.animation.setModel` calls -/
  animCalls : List (Option Nat)
  models : List PcModel
  scene : Scene
  assets : Assets
  /-- trace of `model.destroy()` calls (model identities, with
  multiplicity) -/
  destroyed : List Nat
  fresh : Nat
deriving DecidableEq, Repr

/-! ## Association-list and heap helpers -/

/-- Lookup in an association list (first match). -/
def lookupA {α β : Type} [DecidableEq α] (k : α) : List (α × β) → Option β
  | [] => none
  | (k', v) :: t => if k = k' then some v else lookupA k t

/-- JS-style keyed store: overwrite the first entry with key `k`, or append. -/
def updAssoc {α β : Type} [DecidableEq α] (k : α) (v : β) : List (α × β) → List (α × β)
  | [] => [(k, v)]
  | (k', v') :: t => if k = k' then (k, v) :: t else (k', v') :: updAssoc k v t

/-- Update the first heap entry with the given model identity. -/
def updList (mid : Nat) (f : PcModel → PcModel) : List PcModel → List PcModel
  | [] => []
  | m :: t => if m.id = mid then f m :: t else m :: updList mid f t

/-- Find the live model with the given identity. -/
def lookupModel (st : St) (mid : Nat) : Option PcModel :=
  st.models.find? (fun m => m.id = mid)

/-- Dereference a model object that the source assumes to exist (JS would
hold the object directly; a missing identity yields an inert dummy). -/
def getModelD (st : St) (mid : Nat) : PcModel :=
  (lookupModel st mid).getD { id := mid, graph := 0, meshInstances := [], entityRef := none }

/-- Mutate the live model with the given identity. -/
def updModel (st : St) (mid : Nat) (f : PcModel → PcModel) : St :=
  { st with models := updList mid f st.models }

/-- Mutate the catalog entry with the given id. -/
def updAsset (st : St) (aid : Nat) (f : Asset → Asset) : St :=
  { st with assets := { st.assets with
      entries := st.assets.entries.map (fun a => if a.id = aid then f a else a) } }

/-- `for (i...) model.meshInstances[i] = f(model.meshInstances[i])`: map an
update over every mesh instance of model `mid`. -/
def mapMeshes (st : St) (mid : Nat) (f : MeshInstance → MeshInstance) : St :=
  updModel st mid (fun m => { m with meshInstances := m.meshInstances.map f })

/-- JS `===` between a number and a nullable number. -/
def jsEqNum (a : Nat) (id : Option Nat) : Bool :=
  match id with
  | some n => a = n
  | none => false

/-- A resource payload viewed as a material value (object identity is the
payload handle). -/
def resMaterial (r : Res) : Material := Material.res r.payload

/-! ## Asset registry and scene operations (external collaborators, §6) -/

/-- `assets.get(id)`. -/
def Assets.get (as : Assets) (id : Nat) : Option Asset :=
  as.entries.find? (fun a => a.id = id)

/-- `assets.getByUrl(url)`: the entry whose file URL matches. -/
def Assets.getByUrl (as : Assets) (url : String) : Option Asset :=
  as.entries.find? (fun a => a.fileUrl = url)

/-- `assets.on(key, handler, this)`. -/
def regOn (as : Assets) (key : String) (h : Handler) : Assets :=
  { as with subs := as.subs ++ [⟨key, h, false⟩] }

/-- `assets.once(key, handler, this)`. -/
def regOnce (as : Assets) (key : String) (h : Handler) : Assets :=
  { as with subs := as.subs ++ [⟨key, h, true⟩] }

/-- `assets.off(key, handler, this)`: removes every matching registration. -/
def regOff (as : Assets) (key : String) (h : Handler) : Assets :=
  { as with subs := as.subs.filter (fun s => ¬(s.key = key ∧ s.handler = h)) }

/-- `assets.load(asset)`: recorded at the boundary (loading is asynchronous
and delivered by the external catalog). -/
def Assets.load (as : Assets) (aid : Nat) : Assets :=
  { as with loadCalls := as.loadCalls ++ [aid] }

/-- `scene.containsModel(m)`. -/
def Scene.containsModel (sc : Scene) (m : Option Nat) : Bool :=
  m ∈ sc.drawn

/-- `scene.addModel(m)`: idempotent insertion into the draw set; the call
itself is always recorded. -/
def Scene.addModel (sc : Scene) (m : Option Nat) : Scene :=
  { sc with
    addModelCalls := sc.addModelCalls ++ [m],
    drawn := if m ∈ sc.drawn then sc.drawn else sc.drawn ++ [m] }

/-- `scene.removeModel(m)`. -/
def Scene.removeModel (sc : Scene) (m : Option Nat) : Scene :=
  { sc with drawn := sc.drawn.filter (fun x => x ≠ m) }

/-- `scene.addShadowCaster(m)`. -/
def Scene.addShadowCaster (sc : Scene) (m : Option Nat) : Scene :=
  { sc with shadowCasters :=
      if m ∈ sc.shadowCasters then sc.shadowCasters else sc.shadowCasters ++ [m] }

/-- `scene.removeShadowCaster(m)`. -/
def Scene.removeShadowCaster (sc : Scene) (m : Option Nat) : Scene :=
  { sc with shadowCasters := sc.shadowCasters.filter (fun x => x ≠ m) }

/-- Everything before the final `/` of a character list (empty when there
is no `/`). -/
def dropLastComponent (l : List Char) : List Char :=
  ((l.reverse.dropWhile (fun c => c ≠ '/')).drop 1).reverse

/-- `pc.path.getDirectory(url)`: everything before the final `/`. -/
def pathGetDirectory (url : String) : String :=
  String.mk (dropLastComponent url.data)

/-- `pc.path.join(dir, path)`. -/
def pathJoin (dir p : String) : String :=
  if dir = "" then p else dir ++ "/" ++ p

/-- JS truthiness of a nullable numeric id (`0` and `null` are falsy). -/
def jsTruthyNat (o : Option Nat) : Bool :=
  match o with
  | some n => n ≠ 0
  | none => false

/-- `'evt:' + id` JS string concatenation (`null` prints as `"null"`). -/
def idKey (id : Option Nat) : String :=
  match id with
  | some n => toString n
  | none => "null"

/-! ## `ModelComponent` methods (src/unnamed/part_000) -/

/-- `ModelComponent.prototype._setMaterialEvent(index, event, id, handler)`:
subscribe on the registry under `event + ':' + id` and record the
registration in the `_materialEvents` ledger (creating the array and the
per-index dictionary on demand; a second record under the same index and
event key overwrites the first). -/
def setMaterialEvent (st : St) (index : Nat) (event id : String) (handler : Handler) : St :=
  let evt := event ++ ":" ++ id
  let st := { st with assets := regOn st.assets evt handler }
  let events := st._materialEvents.getD []
  let slot := (lookupA index events).getD []
  { st with _materialEvents := some (updAssoc index (updAssoc evt ⟨id, handler⟩ slot) events) }

/-- `ModelComponent.prototype._unsetMaterialEvents()`: for every record in
the ledger, `assets.off(key, record.handler, this)`; then clear the ledger.
A `null` ledger is a no-op. -/
def unsetMaterialEvents (st : St) : St :=
  match st._materialEvents with
  | none => st
  | some events =>
    let as := events.foldl
      (fun acc e => e.2.foldl (fun acc2 kv => regOff acc2 kv.1 kv.2.handler) acc)
      st.assets
    { st with assets := as, _materialEvents := none }

/-- `ModelComponent.prototype._getMaterialAssetUrl(path)`. -/
def getMaterialAssetUrl (st : St) (path : String) : Option String :=
  if ¬ jsTruthyNat st._asset then none
  else
    match st._asset.bind (Assets.get st.assets) with
    | none => none
    | some modelAsset =>
      some (pathJoin (pathGetDirectory modelAsset.fileUrl) path)

/-- `ModelComponent.prototype._getAssetByIdOrPath(idOrPath)`: numeric ids
resolve via `assets.get`; path-like values resolve via `assets.getByUrl`
against the bound model asset's directory. -/
def getAssetByIdOrPath (st : St) (idOrPath : IdOrPath) : Option Asset :=
  match idOrPath with
  | .id n => Assets.get st.assets n
  | .path p =>
    if jsTruthyNat st._asset then
      match getMaterialAssetUrl st p with
      | some url => Assets.getByUrl st.assets url
      | none => none
    else none

/-- `meshInstances[index].material = v` on model `mid`. -/
def setMeshMaterial (st : St) (mid index : Nat) (v : Material) : St :=
  updModel st mid (fun m =>
    match m.meshInstances[index]? with
    | some mi => { m with meshInstances := m.meshInstances.set index { mi with material := v } }
    | none => m)

/-- The `handleMaterial` closure of `_loadAndSetMeshInstanceMaterial`,
acting on mesh `index` of model `mid`: a loaded asset's resource is applied
and a fresh `remove` callback recorded; an unloaded asset gets a fresh
`load` callback and, if enabled, a load request. Each anonymous callback is
a fresh function object drawn from the fresh counter. -/
def handleMaterial (st : St) (a : Asset) (mid index : Nat) : St :=
  match a.resource with
  | some r =>
    let st := setMeshMaterial st mid index (Material.res r.payload)
    let st' := { st with fresh := st.fresh + 1 }
    setMaterialEvent st' index "remove" (toString a.id) (Handler.closure st.fresh)
  | none =>
    let st' := { st with fresh := st.fresh + 1 }
    let st2 := setMaterialEvent st' index "load" (toString a.id) (Handler.closure st.fresh)
    if st2.enabled ∧ st2.entityEnabled then
      { st2 with assets := Assets.load st2.assets a.id }
    else st2

/-- `ModelComponent.prototype._loadAndSetMeshInstanceMaterial(idOrPath,
meshInstance, index)`. -/
def loadAndSetMeshInstanceMaterial (st : St) (idOrPath : IdOrPath) (mid index : Nat) : St :=
  -- get asset by id or url
  match getAssetByIdOrPath st idOrPath with
  | none => st     -- `if (! asset) return;`
  | some asset =>
    -- `if (asset) { handleMaterial(asset); } else { ... }` — after the
    -- early return above, `asset` is always non-null here, so the source's
    -- else branch (interim default material plus an 'add'/'add:url'
    -- late-registration subscription) is unreachable.
    handleMaterial st asset mid index

/-- The `lightmapped` property setter. -/
def setLightmapped (st : St) (value : Bool) : St :=
  let st := { st with _lightmapped := value }
  match st._model with
  | none => st
  | some mid =>
    if value then
      mapMeshes st mid (fun mi => { mi with mask := MASK_BAKED })
    else
      mapMeshes st mid (fun mi => { mi with lightMapParams := false, shaderDefsLM := false, mask := MASK_DYNAMIC })

/-- The `isStatic` property setter. -/
def setIsStatic (st : St) (value : Bool) : St :=
  let st := { st with _isStatic := value }
  match st._model with
  | none => st
  | some mid =>
    mapMeshes st mid (fun mi => { mi with isStatic := value })

/-- The `material` property setter. -/
def setMaterial (st : St) (newValue : Material) : St :=
  let oldValue := st._material
  let st := { st with _material := newValue }
  if newValue ≠ oldValue then
    match st._model with
    | some mid =>
      if st._type ≠ "asset" then
        mapMeshes st mid (fun mi => { mi with material := newValue })
      else st
    | none => st
  else st

/-- Truthiness of a `data.mapping` entry's `material` field. -/
def amTruthyMaterial (e : AMapEntry) : Bool :=
  match e.material with
  | some n => n ≠ 0
  | none => false

/-- Truthiness of a `data.mapping` entry's `path` field. -/
def amTruthyPath (e : AMapEntry) : Bool :=
  match e.path with
  | some s => s ≠ ""
  | none => false

/-- `assetMapping[i].material || assetMapping[i].path`. -/
def matEntryRef (e : AMapEntry) : IdOrPath :=
  if amTruthyMaterial e then .id (e.material.getD 0)
  else .path (e.path.getD "")

/-- One iteration of the `mapping` setter's per-mesh loop at index `i`
(`newValue[i] !== undefined` is modelled by presence in the table; a
present-but-falsy entry is `some none`). -/
def mapStep (nv : MapTable) (am : Option (List (Nat × AMapEntry))) (mid : Nat)
    (st : St) (i : Nat) : St :=
  match lookupA i nv with
  | some entryVal =>
    match entryVal with
    | some idOrPath => loadAndSetMeshInstanceMaterial st idOrPath mid i
    | none => setMeshMaterial st mid i Material.defaultMat
  | none =>
    match am with
    | some amt =>
      match lookupA i amt with
      | some e =>
        if amTruthyMaterial e ∨ amTruthyPath e then
          loadAndSetMeshInstanceMaterial st (matEntryRef e) mid i
        else setMeshMaterial st mid i Material.defaultMat
      | none => setMeshMaterial st mid i Material.defaultMat
    | none => st

/-- The `mapping` property setter: store the table; if the component is of
type `'asset'` and has a model, tear down the material-event ledger and
re-resolve every mesh index against the explicit table and the model
asset's `data.mapping`. -/
def setMapping (st : St) (newValue : Option MapTable) : St :=
  let st1 := { st with _mapping := newValue }
  if st1._type ≠ "asset" then st1
  else
    match st1._model with
    | none => st1
    | some mid =>
      let st2 := unsetMaterialEvents st1
      let nv := newValue.getD []
      let modelAsset :=
        if jsTruthyNat st2._asset then st2._asset.bind (Assets.get st2.assets) else none
      let assetMapping := modelAsset.bind (fun a => a.dataMapping)
      let len := (getModelD st2 mid).meshInstances.length
      (List.range len).foldl (mapStep nv assetMapping mid) st2

/-- The first half of the `model` setter body (`if (oldValue) { ... }`):
remove the old instance from the scene, remove its root from the entity's
children, delete its `_entity` back-reference, and destroy it when it was a
private clone (clearing `_clonedModel`). -/
def detachOld (st : St) (oldValue : Option Nat) : St :=
  match oldValue with
  | none => st
  | some oldId =>
    let g := (getModelD st oldId).graph
    let st := { st with scene := Scene.removeModel st.scene (some oldId) }
    let st := { st with entityChildren := st.entityChildren.erase g }
    let st := updModel st oldId (fun m => { m with entityRef := none })
    if st._clonedModel then
      { st with destroyed := st.destroyed ++ [oldId], _clonedModel := false }
    else st

/-- The second half of the `model` setter body (`if (newValue) { ... }`):
mirror the render flags onto the new instance, attach its root to the
entity, add it to the scene when enabled, set its `_entity` back-reference,
notify the animation component, and re-run the mapping resolver (type
`'asset'`) or tear down the material events (primitive types). -/
def attachNew (st : St) (newId : Nat) : St :=
  let st := mapMeshes st newId (fun mi =>
    { mi with castShadow := st._castShadows, receiveShadow := st._receiveShadows })
  let st := setLightmapped st st._lightmapped
  let st := setIsStatic st st._isStatic
  let st := { st with entityChildren := st.entityChildren ++ [(getModelD st newId).graph] }
  let st := if st.enabled ∧ st.entityEnabled then
      { st with scene := Scene.addModel st.scene (some newId) }
    else st
  let st := updModel st newId (fun m => { m with entityRef := some st.entityId })
  let st := if st.hasAnimation then { st with animCalls := st.animCalls ++ [some newId] } else st
  if st._type = "asset" then setMapping st st._mapping
  else unsetMaterialEvents st

/-- The `model` property setter: detach (and, for a private clone, destroy)
the previous instance; attach a new instance, or tear down the material
events on `null`. -/
def setModel (st : St) (newValue : Option Nat) : St :=
  let oldValue := st._model
  let st := { st with _model := newValue }
  let st := detachOld st oldValue
  match newValue with
  | none => unsetMaterialEvents st
  | some newId => attachNew st newId

/-- `ModelComponent.prototype._onModelLoaded(model)`. -/
def onModelLoaded (st : St) (modelId : Nat) : St :=
  if st._type = "asset" then setModel st (some modelId) else st

/-- `asset.resource.clone()`: a fresh private `pc.Model` copying the
resource's mesh data; returns the mutated state and the clone's identity. -/
def cloneModelRes (st : St) (r : Res) : St × Nat :=
  let nodeId := st.fresh
  let modelId := st.fresh + 1
  let m : PcModel := { id := modelId, graph := nodeId, meshInstances := r.meshes, entityRef := none }
  ({ st with fresh := st.fresh + 2, models := st.models ++ [m] }, modelId)

/-- `asset.on(event, handler, this)` on an asset object. -/
def assetOn (st : St) (aid : Nat) (event : String) (h : Handler) : St :=
  updAsset st aid (fun a => { a with subs := a.subs ++ [(event, h)] })

/-- `asset.off(event, handler, this)` on an asset object. -/
def assetOff (st : St) (aid : Nat) (event : String) (h : Handler) : St :=
  updAsset st aid (fun a =>
    { a with subs := a.subs.filter (fun s => ¬(s.1 = event ∧ s.2 = h)) })

/-- `ModelComponent.prototype._onModelAsset(asset)`: unbind the previous
model asset's events, remember the new id, subscribe to the new asset's
events and either clone its resource (marking the clone private) or trigger
a load when enabled. -/
def onModelAsset (st : St) (asset : Option Asset) : St :=
  -- clear old assets bindings
  let st :=
    if st._assetOld ≠ 0 then
      let as1 := regOff st.assets ("add:" ++ toString st._assetOld) Handler.onModelAsset
      let st := { st with assets := as1 }
      match Assets.get st.assets st._assetOld with
      | some assetOld =>
        let st := assetOff st assetOld.id "load" Handler.onAssetLoad
        let st := assetOff st assetOld.id "unload" Handler.onAssetUnload
        let st := assetOff st assetOld.id "change" Handler.onAssetChange
        assetOff st assetOld.id "remove" Handler.onAssetRemove
      | none => st
    else st
  -- remember new asset id
  let st := { st with _assetOld := match asset with | some a => a.id | none => 0 }
  match asset with
  | some a =>
    let st := assetOn st a.id "load" Handler.onAssetLoad
    let st := assetOn st a.id "unload" Handler.onAssetUnload
    let st := assetOn st a.id "change" Handler.onAssetChange
    let st := assetOn st a.id "remove" Handler.onAssetRemove
    match a.resource with
    | some r =>
      let st := { st with _dirtyModelAsset := false }
      let p := cloneModelRes st r
      let st := onModelLoaded p.1 p.2
      { st with _clonedModel := true }
    | none =>
      if st.enabled ∧ st.entityEnabled then
        let st := { st with _dirtyModelAsset := false }
        { st with assets := Assets.load st.assets a.id }
      else st
  | none => { st with _dirtyModelAsset := false }

/-- `ModelComponent.prototype._setModelAsset(id)`: a no-op when `id` is
strictly equal to `_assetOld`; otherwise rebind, subscribing a one-shot
`add:<id>` handler when the entry is not yet in the catalog. -/
def setModelAsset (st : St) (id : Option Nat) : St :=
  if jsEqNum st._assetOld id then st
  else
    let asset := match id with | some n => Assets.get st.assets n | none => none
    let st := { st with _dirtyModelAsset := true }
    let st := onModelAsset st asset
    match id with
    | some n =>
      if asset.isNone then
        { st with assets := regOnce st.assets ("add:" ++ toString n) Handler.onModelAsset }
      else st
    | none => st

/-- The `asset` property setter. -/
def setAsset (st : St) (value : AssetVal) : St :=
  let p : Option Nat × St :=
    if st._type = "asset" then
      match value with
      | .num n => (some n, { st with _asset := some n })
      | .obj a => (some a.id, { st with _asset := some a.id })
      | .null => (none, setModel { st with _asset := none } none)
    else (none, st)
  let id := p.1
  let st := p.2
  let st := if id = none then { st with _asset := none } else st
  setModelAsset st id

/-- JS strict equality between the stored `_materialAsset` value
(number | Asset | null) and the derived `id` (number | null): an Asset
object is never `===` a number or `null`. -/
def assetValEqId : AssetVal → Option Nat → Bool
  | .num n, some m => n = m
  | .null, none => true
  | _, _ => false

/-- JS truthiness of an `AssetVal`. -/
def assetValTruthy : AssetVal → Bool
  | .num n => n ≠ 0
  | .obj _ => true
  | .null => false

/-- `ModelComponent.prototype._onMaterialAssetRemove(asset)`: fall back to
the default material when the removed asset's resource is the current
material, then unsubscribe the four registry handlers for its id
(`isNaN(asset)` is true only for the object case). -/
def onMaterialAssetRemove (st : St) (asset : AssetVal) : St :=
  let id : Option Nat :=
    match asset with
    | .num n => some n
    | .obj a => some a.id
    | .null => none
  let st :=
    match asset with
    | .obj a =>
      if a.resource.map resMaterial = some st._material then
        setMaterial st Material.defaultMat
      else st
    | _ => st
  let st := { st with assets := regOff st.assets ("add:" ++ idKey id) Handler.onMaterialAssetAdd }
  let st := { st with assets := regOff st.assets ("load:" ++ idKey id) Handler.onMaterialAssetLoad }
  let st := { st with assets := regOff st.assets ("unload:" ++ idKey id) Handler.onMaterialAssetUnload }
  { st with assets := regOff st.assets ("remove:" ++ idKey id) Handler.onMaterialAssetRemove }

/-- `ModelComponent.prototype._onMaterialAssetLoad(asset)`. -/
def onMaterialAssetLoad (st : St) (a : Asset) : St :=
  match a.resource with
  | some r =>
    let st := setMaterial st (Material.res r.payload)
    { st with _dirtyMaterialAsset := false }
  | none =>
    if st.enabled ∧ st.entityEnabled then
      let st := { st with _dirtyMaterialAsset := false }
      { st with assets := Assets.load st.assets a.id }
    else st

/-- The `materialAsset` property setter. Note that the source assigns
`this._materialAsset = value` before comparing `this._materialAsset !== id`,
so the comparison is between the raw value and the id derived from it. -/
def setMaterialAsset (st : St) (value : AssetVal) : St :=
  let st := { st with _materialAsset := value }
  let st := { st with _dirtyMaterialAsset := true }
  -- if the type of the value is not a number assume it is an pc.Asset
  let id : Option Nat :=
    match value with
    | .num n => some n
    | .null => none
    | .obj a => some a.id
  -- unsubscribe
  let st :=
    if ¬ assetValEqId st._materialAsset id then
      let st :=
        if assetValTruthy st._materialAsset then onMaterialAssetRemove st st._materialAsset
        else st
      if jsTruthyNat id then
        let st := { st with assets := regOn st.assets ("load:" ++ idKey id) Handler.onMaterialAssetLoad }
        let st := { st with assets := regOn st.assets ("unload:" ++ idKey id) Handler.onMaterialAssetUnload }
        { st with assets := regOn st.assets ("remove:" ++ idKey id) Handler.onMaterialAssetRemove }
      else st
    else st
  -- try to load the material asset
  match id with
  | some n =>
    let asset := Assets.get st.assets n
    let st := match asset with | some a => onMaterialAssetLoad st a | none => st
    { st with assets := regOnce st.assets ("add:" ++ toString n) Handler.onMaterialAssetAdd }
  | none =>
    let st := setMaterial st Material.defaultMat
    { st with _dirtyMaterialAsset := false }

/-- The `castShadows` property setter. -/
def setCastShadows (st : St) (value : Bool) : St :=
  let oldValue := st._castShadows
  let st := { st with _castShadows := value }
  match st._model with
  | none => st
  | some mid =>
    let inScene := Scene.containsModel st.scene (some mid)
    let st :=
      if inScene ∧ oldValue ∧ ¬ value then
        { st with scene := Scene.removeShadowCaster st.scene (some mid) }
      else st
    let st := mapMeshes st mid (fun mi => { mi with castShadow := value })
    if inScene ∧ ¬ oldValue ∧ value then
      { st with scene := Scene.addShadowCaster st.scene (some mid) }
    else st

/-- The `batchGroupId` property setter: only a grouped (`≥ 0`) →
ungrouped (`< 0`) transition while enabled touches the scene, re-adding
`this._model` (with no check that a model is bound). -/
def setBatchGroupId (st : St) (newValue : Int) : St :=
  let oldValue := st._batchGroupId
  let st := { st with _batchGroupId := newValue }
  if newValue < 0 ∧ 0 ≤ oldValue ∧ st.enabled ∧ st.entityEnabled then
    -- re-add model to scene, in case it was removed by batching
    { st with scene := Scene.addModel st.scene st._model }
  else st

/-- `system.box`, `system.capsule`, ...: the recognized primitive meshes,
identified by name (`none` for an unrecognized switch value). -/
def systemMesh : String → Option String
  | "box" => some "box"
  | "capsule" => some "capsule"
  | "sphere" => some "sphere"
  | "cone" => some "cone"
  | "cylinder" => some "cylinder"
  | "plane" => some "plane"
  | _ => none

/-- The primitive shape types handled by the `type` setter's switch. -/
def primTypes : List String := ["box", "capsule", "sphere", "cone", "cylinder", "plane"]

/-- The full recognized `type` vocabulary. -/
def recognizedTypes : List String := "asset" :: primTypes

/-- The `type` property setter. An unrecognized truthy value throws
(`Except.error` carries the message and the mutated state, since the JS
exception propagates after `_type` was already written); a primitive value
constructs a fresh single-mesh model (a new `pc.MeshInstance` defaults to
`castShadow = false`, `receiveShadow = true`, `visible = true`) whose
material is `this._material`, assigns it via the `model` setter and clears
the asset reference. -/
def setType (st : St) (value : String) : Except (String × St) St :=
  let st := { st with _type := value }
  -- `if (value)`: the empty string is the falsy String value
  if value = "" then Except.ok st
  else
    let st := { st with _area := none }
    if value = "asset" then
      match st._asset with
      | some aid => Except.ok (setModelAsset st (some aid))
      | none => Except.ok (setModel st none)
    else
      match systemMesh value with
      | none => Except.error ("Invalid model type: " ++ value, st)
      | some meshName =>
        let st := { st with _area := some value }
        let nodeId := st.fresh
        let modelId := st.fresh + 1
        let mi : MeshInstance :=
          { castShadow := false, receiveShadow := true, material := st._material,
            visible := true, isStatic := false, mask := MASK_DYNAMIC,
            shaderDefsLM := false, lightMapParams := false, srcMesh := meshName }
        let newM : PcModel :=
          { id := modelId, graph := nodeId, meshInstances := [mi], entityRef := none }
        let st := { st with fresh := st.fresh + 2, models := st.models ++ [newM] }
        let st := setModel st (some modelId)
        Except.ok (setAsset st AssetVal.null)

/-! ## Observation helpers -/

/-- The material of mesh `index` of model `mid` (as an observation). -/
def meshMaterialAt (st : St) (mid index : Nat) : Option Material :=
  ((getModelD st mid).meshInstances[index]?).map (fun mi => mi.material)

/-- The materials of all mesh instances of model `mid`, in order. -/
def matsAt (st : St) (mid : Nat) : List Material :=
  (getModelD st mid).meshInstances.map (fun mi => mi.material)

/-- The `_materialEvents` ledger entry recorded for slot `index` under the
full event key `key`. -/
def ledgerAt (st : St) (index : Nat) (key : String) : Option MatEvt :=
  (st._materialEvents.bind (fun l => lookupA index l)).bind (fun slot => lookupA key slot)

/-- The handlers a registry event delivery under `key` would invoke: the
handlers of every subscription currently registered under that key. -/
def invokedHandlers (key : String) (st : St) : List Handler :=
  (st.assets.subs.filter (fun s => s.key = key)).map (fun s => s.handler)

/-- The `_materialEvents` ledger slot recorded for mesh index `i`. -/
def ledgerSlot (st : St) (i : Nat) : Option (List (String × MatEvt)) :=
  st._materialEvents.bind (fun l => lookupA i l)

/-- The number of mesh instances of model `mid`. -/
def meshLen (st : St) (mid : Nat) : Nat :=
  (getModelD st mid).meshInstances.length

/-! ## Concrete component states (used by witnesses and counterexamples) -/

/-- A freshly initialized component world: type `'asset'`, no references
bound, empty catalog and empty scene, component and entity enabled. -/
def base : St :=
  { _type := "asset", _asset := none, _castShadows := true, _receiveShadows := true,
    _materialAsset := .null, _mapping := none, _batchGroupId := -1,
    _material := .defaultMat, _model := none, _assetOld := 0, _materialEvents := none,
    _dirtyModelAsset := false, _dirtyMaterialAsset := false, _clonedModel := false,
    _lightmapped := false, _isStatic := false, _area := none,
    enabled := true, entityId := 100, entityEnabled := true, entityChildren := [],
    hasAnimation := false, animCalls := [], models := [], scene := ⟨[], [], []⟩,
    assets := ⟨[], [], []⟩, destroyed := [], fresh := 0 }

/-- A mesh instance carrying the distinct pre-existing material `raw n`. -/
def mkMesh (n : Nat) : MeshInstance :=
  { castShadow := true, receiveShadow := true, material := .raw n, visible := true,
    isStatic := false, mask := 1, shaderDefsLM := false, lightMapParams := false,
    srcMesh := "" }

/-- A live model `A`: identity 1, root graph node 10, four meshes. -/
def mA : PcModel :=
  { id := 1, graph := 10, meshInstances := [mkMesh 0, mkMesh 1, mkMesh 2, mkMesh 3],
    entityRef := some 100 }

/-- A component displaying the private clone `A` (in the scene, attached to
the entity, `_clonedModel` set). -/
def stC1 : St :=
  { base with
    _model := some 1, _clonedModel := true, models := [mA],
    entityChildren := [10], scene := ⟨[some 1], [some 1], []⟩ }

/-- A component whose bound model-asset identifier is 5. -/
def stC2 : St := { base with _assetOld := 5, _asset := some 5 }

/-- Catalog entry 42: a loaded model asset at `models/m.json` that declares
no `data.mapping` table. -/
def modelAsset42 : Asset :=
  { id := 42, resource := some ⟨77, mA.meshInstances⟩, dataMapping := none,
    fileUrl := "models/m.json", subs := [] }

/-- A component of type `'asset'` bound to model asset 42 and displaying
model `A`; the catalog holds only entry 42 (in particular, no entry at
`models/red.mat`). -/
def stC3 : St :=
  { base with
    _model := some 1, _asset := some 42, _assetOld := 42, models := [mA],
    assets := ⟨[modelAsset42], [], []⟩ }

/-- Like `stC3` but with no model asset bound at all, so no
catalog-declared default mapping exists for any mesh index. -/
def stC4 : St := { stC3 with _asset := none, _assetOld := 0, assets := ⟨[], [], []⟩ }

/-- Catalog entry 42 variant that declares an empty `data.mapping` table. -/
def modelAsset42m : Asset := { modelAsset42 with dataMapping := some [] }

/-- Like `stC3` but the model asset declares an (empty) mapping table. -/
def stC4m : St := { stC3 with assets := ⟨[modelAsset42m], [], []⟩ }

/-- Two ledger registrations under the same slot and event key (the second
overwrites the first in the ledger) followed by the teardown. Reachable in
the source: the persistent `load:<id>` registry handler installed by
`handleMaterial` registers a fresh `remove:<id>` callback on every `load`
delivery, so two loads of the same material asset (load, unload, reload)
record two distinct closures under the same `(index, 'remove:<id>')` ledger
cell before any teardown runs. -/
def stOrphan : St :=
  unsetMaterialEvents
    (setMaterialEvent (setMaterialEvent base 0 "remove" "5" (Handler.closure 1))
      0 "remove" "5" (Handler.closure 2))

/-- A single ledger registration, for the teardown witness. -/
def stC5w : St := setMaterialEvent base 0 "load" "5" (Handler.closure 7)

/-! ## General lemmas about the helpers -/

theorem lookupA_updAssoc_ne {α β : Type} [DecidableEq α] (k k' : α) (v : β)
    (l : List (α × β)) (h : k' ≠ k) :
    lookupA k' (updAssoc k v l) = lookupA k' l := by
  induction l with
  | nil => simp [updAssoc, lookupA, h]
  | cons hd tl ih =>
    by_cases hk : k = hd.1
    · simp [updAssoc, lookupA, hk, h]
      rw [if_neg (by simpa [hk] using h), if_neg (by simpa [hk] using h)]
    · cases hd with
      | mk a b =>
        simp only [updAssoc, if_neg (by simpa using hk)]
        by_cases hk' : k' = a <;> simp [lookupA, hk', ih]

theorem lookupA_mem {α β : Type} [DecidableEq α] (k : α) (v : β) (l : List (α × β))
    (h : lookupA k l = some v) : (k, v) ∈ l := by
  induction l with
  | nil => simp [lookupA] at h
  | cons hd tl ih =>
    rw [lookupA] at h
    split at h
    · rename_i heq
      cases h
      simp [heq]
    · exact List.mem_cons_of_mem _ (ih h)

theorem find?_updList_self (mid : Nat) (f : PcModel → PcModel)
    (hid : ∀ m, (f m).id = m.id) (l : List PcModel) :
    (updList mid f l).find? (fun m => m.id = mid)
      = (l.find? (fun m => m.id = mid)).map f := by
  induction l with
  | nil => rfl
  | cons hd tl ih =>
    by_cases hk : hd.id = mid
    · simp [updList, hk, List.find?, hid hd]
    · simp [updList, hk, List.find?, ih]

theorem find?_updList_ne (k mid : Nat) (f : PcModel → PcModel)
    (hid : ∀ m, (f m).id = m.id) (hne : mid ≠ k) (l : List PcModel) :
    (updList k f l).find? (fun m => m.id = mid) = l.find? (fun m => m.id = mid) := by
  induction l with
  | nil => rfl
  | cons hd tl ih =>
    by_cases hk : hd.id = k
    · rw [updList, if_pos hk]
      rw [List.find?_cons_of_neg _ (by simp [hid hd, hk]; exact fun h => hne h.symm)]
      rw [List.find?_cons_of_neg _ (by simp [hk]; exact fun h => hne h.symm)]
    · rw [updList, if_neg hk]
      by_cases hm : hd.id = mid
      · rw [List.find?_cons_of_pos _ (by simp [hm]), List.find?_cons_of_pos _ (by simp [hm])]
      · rw [List.find?_cons_of_neg _ (by simp [hm]), List.find?_cons_of_neg _ (by simp [hm])]
        exact ih

theorem lookupModel_updModel_self (st : St) (mid : Nat) (f : PcModel → PcModel)
    (hid : ∀ m, (f m).id = m.id) :
    lookupModel (updModel st mid f) mid = (lookupModel st mid).map f := by
  simpa [lookupModel, updModel] using find?_updList_self mid f hid st.models

theorem lookupModel_updModel_ne (st : St) (k mid : Nat) (f : PcModel → PcModel)
    (hid : ∀ m, (f m).id = m.id) (hne : mid ≠ k) :
    lookupModel (updModel st k f) mid = lookupModel st mid := by
  simpa [lookupModel, updModel] using find?_updList_ne k mid f hid hne st.models

theorem getModelD_models_eq (st st' : St) (mid : Nat) (h : st'.models = st.models) :
    getModelD st' mid = getModelD st mid := by
  unfold getModelD lookupModel
  rw [h]

theorem getModelD_mapMeshes_self (st : St) (mid : Nat) (f : MeshInstance → MeshInstance) :
    (getModelD (mapMeshes st mid f) mid).meshInstances
      = (getModelD st mid).meshInstances.map f := by
  unfold getModelD
  rw [show mapMeshes st mid f
      = updModel st mid (fun m => { m with meshInstances := m.meshInstances.map f }) from rfl]
  rw [lookupModel_updModel_self st mid
    (fun m => { m with meshInstances := m.meshInstances.map f }) (fun m => rfl)]
  cases lookupModel st mid <;> simp

theorem getModelD_mapMeshes_ne (st : St) (k mid : Nat) (f : MeshInstance → MeshInstance)
    (hne : mid ≠ k) :
    getModelD (mapMeshes st k f) mid = getModelD st mid := by
  unfold getModelD
  rw [show mapMeshes st k f
      = updModel st k (fun m => { m with meshInstances := m.meshInstances.map f }) from rfl]
  rw [lookupModel_updModel_ne st k mid
    (fun m => { m with meshInstances := m.meshInstances.map f }) (fun m => rfl) hne]

/-- `setMaterial` never touches registry subscriptions. -/
theorem setMaterial_subs (st : St) (v : Material) :
    (setMaterial st v).assets.subs = st.assets.subs := by
  simp only [setMaterial]
  split
  · split
    · split <;> simp [mapMeshes, updModel]
    · simp
  · simp

/-- `setMaterial` never changes the stored `_materialAsset`. -/
theorem setMaterial_materialAsset (st : St) (v : Material) :
    (setMaterial st v)._materialAsset = st._materialAsset := by
  simp only [setMaterial]
  split
  · split
    · split <;> simp [mapMeshes, updModel]
    · simp
  · simp

/-- `_onMaterialAssetLoad` never touches registry subscriptions. -/
theorem onMaterialAssetLoad_subs (st : St) (a : Asset) :
    (onMaterialAssetLoad st a).assets.subs = st.assets.subs := by
  simp only [onMaterialAssetLoad]
  split
  · rename_i r hr
    simp [setMaterial_subs]
  · split
    · simp [Assets.load]
    · simp

/-- `_onMaterialAssetLoad` never changes the stored `_materialAsset`. -/
theorem onMaterialAssetLoad_materialAsset (st : St) (a : Asset) :
    (onMaterialAssetLoad st a)._materialAsset = st._materialAsset := by
  simp only [onMaterialAssetLoad]
  split
  · rename_i r hr
    simp [setMaterial_materialAsset]
  · split
    · simp [Assets.load]
    · simp

/-- `setMaterial` never touches catalog entries. -/
theorem setMaterial_entries (st : St) (v : Material) :
    (setMaterial st v).assets.entries = st.assets.entries := by
  simp only [setMaterial]
  split
  · split
    · split <;> simp [mapMeshes, updModel]
    · simp
  · simp

/-- `_onMaterialAssetRemove` only unsubscribes (and possibly resets the
material): catalog entries are untouched. -/
theorem onMaterialAssetRemove_entries (st : St) (v : AssetVal) :
    (onMaterialAssetRemove st v).assets.entries = st.assets.entries := by
  cases v with
  | num m => simp [onMaterialAssetRemove, regOff]
  | null => simp [onMaterialAssetRemove, regOff]
  | obj a =>
    simp only [onMaterialAssetRemove, regOff]
    split <;> simp [setMaterial_entries]

/-- `_onMaterialAssetRemove` only unsubscribes (and possibly resets the
material): catalog entries are untouched, so `assets.get` is unchanged. -/
theorem onMaterialAssetRemove_get (st : St) (v : AssetVal) (n : Nat) :
    Assets.get (onMaterialAssetRemove st v).assets n = Assets.get st.assets n := by
  cases v with
  | num m => simp [onMaterialAssetRemove, Assets.get, regOff]
  | null => simp [onMaterialAssetRemove, Assets.get, regOff]
  | obj a =>
    simp only [onMaterialAssetRemove, regOff]
    split <;> simp [setMaterial_entries, Assets.get]

/-- `_onMaterialAssetRemove` never changes the stored `_materialAsset`. -/
theorem onMaterialAssetRemove_materialAsset (st : St) (v : AssetVal) :
    (onMaterialAssetRemove st v)._materialAsset = st._materialAsset := by
  simp only [onMaterialAssetRemove]
  cases v with
  | num n => simp [regOff]
  | null => simp [regOff]
  | obj a =>
    simp only [regOff]
    split <;> simp [setMaterial_materialAsset]

/-! ## Claims -/

/-- C2: setting the model resource reference to the identifier that is
already bound (`_assetOld`) is a no-op apart from storing the raw reference
in `_asset`: in particular it tears down no subscription (registry or
per-asset), establishes no subscription, and changes no scene membership —
the resulting state is `st` with only `_asset := some n`. -/
theorem claim_C2_idempotent_model_reference (st : St) (n : Nat)
    (ht : st._type = "asset") (hb : st._assetOld = n) :
    setAsset st (AssetVal.num n) = { st with _asset := some n } := by
  simp [setAsset, setModelAsset, jsEqNum, ht, hb]

/-- Witness for C2 at a concrete component bound to identifier 5. -/
theorem claim_C2_witness :
    setAsset stC2 (AssetVal.num 5) = { stC2 with _asset := some 5 } :=
  claim_C2_idempotent_model_reference stC2 5 rfl rfl

/-- C8: with component and entity enabled, a batch-group transition from
grouped (`≥ 0`) to ungrouped (`< 0`) re-adds the bound model to the render
scene's draw set; any other transition leaves both scene sets unchanged. -/
theorem claim_C8_batch_group_scene (st : St) (n : Int)
    (he : st.enabled = true) (hee : st.entityEnabled = true) :
    (0 ≤ st._batchGroupId → n < 0 → ∀ mid, st._model = some mid →
      some mid ∈ (setBatchGroupId st n).scene.drawn) ∧
    (¬(n < 0 ∧ 0 ≤ st._batchGroupId) →
      (setBatchGroupId st n).scene.drawn = st.scene.drawn ∧
      (setBatchGroupId st n).scene.shadowCasters = st.scene.shadowCasters) := by
  constructor
  · intro hb hn mid hm
    simp [setBatchGroupId, Scene.addModel, he, hee, hb, hn, hm]
    split <;> simp_all
  · intro hcond
    rw [setBatchGroupId]
    split
    · rename_i hc
      exact absurd ⟨hc.1, hc.2.1⟩ hcond
    · exact ⟨rfl, rfl⟩

/-- Witness for C8: a grouped→ungrouped transition on a component showing
model 1 re-adds it to the draw set; a 2→5 transition changes nothing. -/
theorem claim_C8_witness :
    (some 1 ∈ (setBatchGroupId { stC1 with _batchGroupId := 2, scene := ⟨[], [], []⟩ } (-1)).scene.drawn) ∧
    ((setBatchGroupId { stC1 with _batchGroupId := 2 } 5).scene.drawn = stC1.scene.drawn) := by
  refine ⟨?_, ?_⟩
  · exact (claim_C8_batch_group_scene { stC1 with _batchGroupId := 2, scene := ⟨[], [], []⟩ } (-1)
      rfl rfl).1 (by decide) (by decide) 1 rfl
  · exact ((claim_C8_batch_group_scene { stC1 with _batchGroupId := 2 } 5 rfl rfl).2 (by decide)).1

/-- C10: when the batch-group identifier transitions from grouped to
ungrouped on an enabled component with no bound model, `scene.addModel` is
invoked with `null` (the setter performs no model-bound check). -/
theorem claim_C10_addModel_called_with_null (st : St) (n : Int)
    (hm : st._model = none) (hb : 0 ≤ st._batchGroupId) (hn : n < 0)
    (he : st.enabled = true) (hee : st.entityEnabled = true) :
    (setBatchGroupId st n).scene.addModelCalls = st.scene.addModelCalls ++ [none] := by
  simp [setBatchGroupId, Scene.addModel, he, hee, hb, hn, hm]

/-- Witness for C10 on a concrete grouped, enabled, model-less component. -/
theorem claim_C10_witness :
    (setBatchGroupId { base with _batchGroupId := 3 } (-1)).scene.addModelCalls
      = base.scene.addModelCalls ++ [none] :=
  claim_C10_addModel_called_with_null { base with _batchGroupId := 3 } (-1)
    rfl (by decide) (by decide) rfl rfl

/-- C3 (code behavior at the claim's failing input): with mesh 2 mapped to
the path-like reference `"red.mat"` and no catalog entry at the resolved
URL `models/red.mat`, `_loadAndSetMeshInstanceMaterial` returns at its early
`if (! asset) return;`, so applying the mapping changes nothing but the
stored `_mapping` field: mesh 2's material is **not** set to the default
material and **no** `add:url` late-registration handler is recorded — the
function's own `else` branch, which would do exactly what the claim (and
spec §4.2 step 1) require, is unreachable dead code behind that early
return. -/
theorem claim_C3_dead_late_registration :
    getAssetByIdOrPath stC3 (IdOrPath.path "red.mat") = none ∧
    setMapping stC3 (some [(2, some (IdOrPath.path "red.mat"))])
      = { stC3 with _mapping := some [(2, some (IdOrPath.path "red.mat"))] } ∧
    meshMaterialAt (setMapping stC3 (some [(2, some (IdOrPath.path "red.mat"))])) 1 2
      = some (Material.raw 2) ∧
    invokedHandlers "add:url:red.mat"
      (setMapping stC3 (some [(2, some (IdOrPath.path "red.mat"))])) = [] := by
  refine ⟨by decide, by decide, by decide, by decide⟩

/-- C4 (counterexample): a component of type `'asset'` with a bound model
whose mesh 0 has **no** explicit override entry (empty mapping table) and
**no** catalog-declared default mapping (no model asset is bound, so no
`data.mapping` exists for any index) — yet applying the mapping leaves mesh
0's pre-existing material `raw 0` in place instead of setting the
process-wide default material: the per-mesh loop touches a mesh with no
explicit override only when `assetMapping` is non-null. -/
theorem claim_C4_counterexample :
    lookupA 0 ([] : MapTable) = none ∧
    stC4._asset = none ∧
    meshMaterialAt (setMapping stC4 (some [])) 1 0 = some (Material.raw 0) ∧
    Material.raw 0 ≠ Material.defaultMat := by
  refine ⟨by decide, by decide, by decide, by decide⟩

/-- C5 (counterexample): two registrations under the same slot 0 and the
same event key `remove:5` (distinct closures, as produced by two `load`
deliveries of the same material asset) followed by the teardown leave the
first closure subscribed: the ledger cell was overwritten, so
`unsubscribeAll` removes only the second closure, and a later `remove:5`
delivery still invokes closure 1 — a handler that was registered under slot
0 before the teardown. -/
theorem claim_C5_counterexample :
    stOrphan._materialEvents = none ∧
    invokedHandlers "remove:5" stOrphan = [Handler.closure 1] := by
  refine ⟨by decide, by decide⟩

/-- C7 (counterexample): the empty string is a value outside the recognized
set `{asset, box, capsule, cone, cylinder, sphere, plane}`, yet setting the
type to it does not throw — the setter's `if (value)` guard silently accepts
every falsy value, recording it in `_type`. -/
theorem claim_C7_counterexample :
    "" ∉ recognizedTypes ∧ setType base "" = Except.ok { base with _type := "" } := by
  refine ⟨by decide, by decide⟩

/-- The `materialAsset` setter always leaves the raw assigned value stored
in `_materialAsset` (every later step of the setter preserves the field). -/
theorem setMaterialAsset_materialAsset (st : St) (v : AssetVal) :
    (setMaterialAsset st v)._materialAsset = v := by
  simp only [setMaterialAsset]
  repeat' split
  all_goals simp [onMaterialAssetLoad_materialAsset, onMaterialAssetRemove_materialAsset,
    setMaterial_materialAsset]

/-- C9: the `materialAsset` setter stores the raw value in `_materialAsset`
**before** comparing it against the id derived from that same value, so the
unsubscribe/resubscribe block is skipped for every numeric identifier and
for `null`: the registry subscriptions change only by the one-shot
`add:<id>` handler for a numeric id, and not at all for `null` (no
`load`/`unload`/`remove` handlers registered, none removed). Only an asset
*object* makes the comparison true, in which case the block runs and the
`load:<id>` handler for the object's id is registered. -/
theorem claim_C9_materialAsset_overwrite_skip (st : St) (v : AssetVal) :
    ((setMaterialAsset st v)._materialAsset = v) ∧
    (∀ n, v = AssetVal.num n →
      (setMaterialAsset st v).assets.subs
        = st.assets.subs ++ [⟨"add:" ++ toString n, Handler.onMaterialAssetAdd, true⟩]) ∧
    (v = AssetVal.null → (setMaterialAsset st v).assets.subs = st.assets.subs) ∧
    (∀ a, v = AssetVal.obj a → a.id ≠ 0 →
      (⟨"load:" ++ toString a.id, Handler.onMaterialAssetLoad, false⟩ : Sub)
        ∈ (setMaterialAsset st v).assets.subs) := by
  cases v with
  | num n =>
    cases hga : Assets.get st.assets n with
    | some a =>
      refine ⟨?_, ?_, ?_, ?_⟩
      · simp [setMaterialAsset, assetValEqId, hga, regOnce, idKey,
          onMaterialAssetLoad_materialAsset]
      · intro m hm
        cases hm
        simp [setMaterialAsset, assetValEqId, hga, regOnce, idKey, onMaterialAssetLoad_subs]
      · intro h; exact AssetVal.noConfusion h
      · intro a' h; exact AssetVal.noConfusion h
    | none =>
      refine ⟨?_, ?_, ?_, ?_⟩
      · simp [setMaterialAsset, assetValEqId, hga, regOnce, idKey]
      · intro m hm
        cases hm
        simp [setMaterialAsset, assetValEqId, hga, regOnce, idKey]
      · intro h; exact AssetVal.noConfusion h
      · intro a' h; exact AssetVal.noConfusion h
  | null =>
    refine ⟨?_, ?_, ?_, ?_⟩
    · simp [setMaterialAsset, assetValEqId, setMaterial_materialAsset]
    · intro m hm; exact AssetVal.noConfusion hm
    · intro _
      simp [setMaterialAsset, assetValEqId, setMaterial_subs]
    · intro a' h; exact AssetVal.noConfusion h
  | obj a =>
    refine ⟨setMaterialAsset_materialAsset st (AssetVal.obj a), ?_, ?_, ?_⟩
    · intro m hm; exact AssetVal.noConfusion hm
    · intro h; exact AssetVal.noConfusion h
    · intro a' h ha
      cases h
      cases hga : Assets.get st.assets a.id with
      | some a2 =>
        unfold Assets.get at hga
        simp [setMaterialAsset, assetValEqId, assetValTruthy, jsTruthyNat, idKey, ha, hga,
          regOn, regOnce, Assets.get, onMaterialAssetRemove_entries, onMaterialAssetLoad_subs]
      | none =>
        unfold Assets.get at hga
        simp [setMaterialAsset, assetValEqId, assetValTruthy, jsTruthyNat, idKey, ha, hga,
          regOn, regOnce, Assets.get, onMaterialAssetRemove_entries]

/-- Witness for C9: a numeric assignment registers only the one-shot add
handler; a null assignment changes no subscriptions; an object assignment
runs the block and registers the load handler. -/
theorem claim_C9_witness :
    ((setMaterialAsset base (AssetVal.num 8)).assets.subs
      = base.assets.subs ++ [⟨"add:" ++ toString 8, Handler.onMaterialAssetAdd, true⟩]) ∧
    ((setMaterialAsset base AssetVal.null).assets.subs = base.assets.subs) ∧
    ((⟨"load:" ++ toString 3, Handler.onMaterialAssetLoad, false⟩ : Sub)
      ∈ (setMaterialAsset base (AssetVal.obj ⟨3, none, none, "", []⟩)).assets.subs) := by
  refine ⟨?_, ?_, ?_⟩
  · exact (claim_C9_materialAsset_overwrite_skip base (AssetVal.num 8)).2.1 8 rfl
  · exact (claim_C9_materialAsset_overwrite_skip base AssetVal.null).2.2.1 rfl
  · exact (claim_C9_materialAsset_overwrite_skip base
      (AssetVal.obj ⟨3, none, none, "", []⟩)).2.2.2 ⟨3, none, none, "", []⟩ rfl (by decide)

/-- C6: flipping the cast-shadow flag on a component whose model is in the
scene's draw set: `true → false` removes the model from the shadow-caster
set, leaves the draw set unchanged and clears every sub-mesh's `castShadow`
flag; `false → true` sets every sub-mesh's flag and adds the model to the
shadow-caster set (draw set again unchanged). -/
theorem claim_C6_cast_shadow_flip (st : St) (mid : Nat)
    (hm : st._model = some mid) (hin : some mid ∈ st.scene.drawn) :
    (st._castShadows = true →
      some mid ∉ (setCastShadows st false).scene.shadowCasters ∧
      (setCastShadows st false).scene.drawn = st.scene.drawn ∧
      ∀ mi ∈ (getModelD (setCastShadows st false) mid).meshInstances, mi.castShadow = false) ∧
    (st._castShadows = false →
      some mid ∈ (setCastShadows st true).scene.shadowCasters ∧
      (setCastShadows st true).scene.drawn = st.scene.drawn ∧
      ∀ mi ∈ (getModelD (setCastShadows st true) mid).meshInstances, mi.castShadow = true) := by
  constructor
  · intro hcs
    have hred : setCastShadows st false = mapMeshes { st with _castShadows := false, scene := Scene.removeShadowCaster st.scene (some mid) } mid (fun mi => { mi with castShadow := false }) := by
      simp [setCastShadows, hm, Scene.containsModel, hin, hcs, mapMeshes, updModel]
    refine ⟨?_, ?_, ?_⟩
    · rw [hred]
      simp [mapMeshes, updModel, Scene.removeShadowCaster]
    · rw [hred]
      simp [mapMeshes, updModel, Scene.removeShadowCaster]
    · rw [hred, getModelD_mapMeshes_self]
      intro mi hmi
      rw [List.mem_map] at hmi
      obtain ⟨mi', _, rfl⟩ := hmi
      rfl
  · intro hcs
    have hred : setCastShadows st true = mapMeshes { st with _castShadows := true, scene := Scene.addShadowCaster st.scene (some mid) } mid (fun mi => { mi with castShadow := true }) := by
      simp [setCastShadows, hm, Scene.containsModel, hin, hcs, mapMeshes, updModel]
    refine ⟨?_, ?_, ?_⟩
    · rw [hred]
      simp only [mapMeshes, updModel, Scene.addShadowCaster]
      split <;> simp_all
    · rw [hred]
      simp [mapMeshes, updModel, Scene.addShadowCaster]
    · rw [hred, getModelD_mapMeshes_self]
      intro mi hmi
      rw [List.mem_map] at hmi
      obtain ⟨mi', _, rfl⟩ := hmi
      rfl

/-- Witness for C6 on the concrete in-scene model with four sub-meshes. -/
theorem claim_C6_witness :
    (some 1 ∉ (setCastShadows stC1 false).scene.shadowCasters ∧
      (setCastShadows stC1 false).scene.drawn = stC1.scene.drawn ∧
      ∀ mi ∈ (getModelD (setCastShadows stC1 false) 1).meshInstances, mi.castShadow = false) :=
  (claim_C6_cast_shadow_flip stC1 1 rfl (by decide)).1 rfl

/-- The teardown's inner `assets.off` fold only removes subscriptions. -/
theorem mem_innerFold_subset :
    ∀ (slot : List (String × MatEvt)) (as : Assets) (x : Sub),
      x ∈ (slot.foldl (fun acc2 kv => regOff acc2 kv.1 kv.2.handler) as).subs →
      x ∈ as.subs := by
  intro slot
  induction slot with
  | nil => intro as x hx; exact hx
  | cons kv t ih =>
    intro as x hx
    have h2 := ih (regOff as kv.1 kv.2.handler) x hx
    rw [regOff] at h2
    exact List.mem_of_mem_filter h2

/-- After the inner fold processes a slot containing the record `(key, e)`,
no remaining subscription matches that key/handler pair. -/
theorem innerFold_removes (key : String) (e : MatEvt) :
    ∀ (slot : List (String × MatEvt)) (as : Assets), (key, e) ∈ slot →
      ∀ x ∈ (slot.foldl (fun acc2 kv => regOff acc2 kv.1 kv.2.handler) as).subs,
        ¬(x.key = key ∧ x.handler = e.handler) := by
  intro slot
  induction slot with
  | nil => intro as h; cases h
  | cons kv t ih =>
    intro as hmem x hx
    rcases List.mem_cons.mp hmem with heq | htail
    · cases heq
      intro hmatch
      have hx' := mem_innerFold_subset t _ x hx
      simp only [regOff] at hx'
      have h2 := (List.mem_filter.mp hx').2
      simp [hmatch.1, hmatch.2] at h2
    · exact ih (regOff as kv.1 kv.2.handler) htail x hx

/-- The teardown's outer fold only removes subscriptions. -/
theorem mem_outerFold_subset :
    ∀ (events : Ledger) (as : Assets) (x : Sub),
      x ∈ (events.foldl
            (fun acc p => p.2.foldl (fun acc2 kv => regOff acc2 kv.1 kv.2.handler) acc)
            as).subs →
      x ∈ as.subs := by
  intro events
  induction events with
  | nil => intro as x hx; exact hx
  | cons p t ih =>
    intro as x hx
    exact mem_innerFold_subset p.2 as x (ih _ x hx)

/-- After the teardown's outer fold, no subscription matches any pair that
was recorded in the ledger it walked. -/
theorem outerFold_removes (key : String) (e : MatEvt) :
    ∀ (events : Ledger) (as : Assets) (i : Nat) (slot : List (String × MatEvt)),
      (i, slot) ∈ events → (key, e) ∈ slot →
      ∀ x ∈ (events.foldl
              (fun acc p => p.2.foldl (fun acc2 kv => regOff acc2 kv.1 kv.2.handler) acc)
              as).subs,
        ¬(x.key = key ∧ x.handler = e.handler) := by
  intro events
  induction events with
  | nil => intro as i slot h; cases h
  | cons p t ih =>
    intro as i slot hp hmem x hx
    rcases List.mem_cons.mp hp with heq | htail
    · cases heq
      have hx' := mem_outerFold_subset t _ x hx
      exact innerFold_removes key e slot as hmem x hx'
    · exact ih _ i slot htail hmem x hx

/-- C5 (amended): the teardown removes every handler **recorded in the
ledger at teardown time** — at most one per (slot, event-key) pair, since a
later `_setMaterialEvent` under the same slot and key overwrites the
earlier record — so no catalog event delivered afterwards invokes a
recorded handler; and running the teardown when the ledger is empty
(`_materialEvents === null`) is a no-op rather than an error. (The claim as
frozen — *no handler registered under those slots before the teardown* is
ever invoked — fails for an overwritten handler; see the counterexample.) -/
theorem claim_C5_teardown_exact (st : St) :
    (st._materialEvents = none → unsetMaterialEvents st = st) ∧
    (∀ i key e, ledgerAt st i key = some e →
      e.handler ∉ invokedHandlers key (unsetMaterialEvents st)) := by
  constructor
  · intro h
    unfold unsetMaterialEvents
    rw [h]
  · intro i key e hrec
    unfold ledgerAt at hrec
    cases hme : st._materialEvents with
    | none => rw [hme] at hrec; simp at hrec
    | some events =>
      rw [hme] at hrec
      simp only [Option.some_bind] at hrec
      cases hsl : lookupA i events with
      | none => rw [hsl] at hrec; simp at hrec
      | some slot =>
        rw [hsl] at hrec
        simp only [Option.some_bind] at hrec
        have hmem_ev := lookupA_mem i slot events hsl
        have hmem_slot := lookupA_mem key e slot hrec
        intro hinv
        rw [invokedHandlers, List.mem_map] at hinv
        obtain ⟨x, hxmem, hxh⟩ := hinv
        rw [List.mem_filter] at hxmem
        obtain ⟨hxsubs, hxkey⟩ := hxmem
        simp only [unsetMaterialEvents, hme] at hxsubs
        exact outerFold_removes key e events st.assets i slot hmem_ev hmem_slot x hxsubs
          ⟨by simpa using hxkey, hxh⟩

/-- Witness for C5 (amended) at a concrete single-record ledger. -/
theorem claim_C5_witness :
    Handler.closure 7 ∉ invokedHandlers "load:5" (unsetMaterialEvents stC5w) :=
  (claim_C5_teardown_exact stC5w).2 0 "load:5" ⟨"5", Handler.closure 7⟩ (by decide)

/-! ## Frame lemmas for the mapping resolver loop -/

theorem meshMaterialAt_congr (s s' : St) (mid i : Nat) (h : s'.models = s.models) :
    meshMaterialAt s' mid i = meshMaterialAt s mid i := by
  unfold meshMaterialAt
  rw [getModelD_models_eq s s' mid h]

theorem meshLen_congr (s s' : St) (mid : Nat) (h : s'.models = s.models) :
    meshLen s' mid = meshLen s mid := by
  unfold meshLen
  rw [getModelD_models_eq s s' mid h]

theorem lookupModel_setMeshMaterial_self (s : St) (mid j : Nat) (v : Material) :
    lookupModel (setMeshMaterial s mid j v) mid
      = (lookupModel s mid).map (fun m =>
          match m.meshInstances[j]? with
          | some mi => { m with meshInstances := m.meshInstances.set j { mi with material := v } }
          | none => m) := by
  unfold setMeshMaterial
  exact lookupModel_updModel_self s mid _ (fun m => by cases hmi : m.meshInstances[j]? <;> simp [hmi])

theorem lookupModel_setMeshMaterial_ne (s : St) (mid j k : Nat) (v : Material) (hk : k ≠ mid) :
    lookupModel (setMeshMaterial s mid j v) k = lookupModel s k := by
  unfold setMeshMaterial
  exact lookupModel_updModel_ne s mid k _ (fun m => by cases hmi : m.meshInstances[j]? <;> simp [hmi]) hk

theorem meshMaterialAt_setMeshMaterial_self (s : St) (mid i : Nat) (v : Material)
    (hi : i < meshLen s mid) :
    meshMaterialAt (setMeshMaterial s mid i v) mid i = some v := by
  unfold meshMaterialAt getModelD
  rw [lookupModel_setMeshMaterial_self]
  cases hlm : lookupModel s mid with
  | none =>
    exfalso
    unfold meshLen getModelD at hi
    rw [hlm] at hi
    simp at hi
  | some m =>
    have hi' : i < m.meshInstances.length := by
      unfold meshLen getModelD at hi
      rw [hlm] at hi
      simpa using hi
    obtain ⟨mi, hmi⟩ : ∃ mi, m.meshInstances[i]? = some mi := by
      rw [List.getElem?_eq_getElem hi']
      exact ⟨_, rfl⟩
    simp [hmi, List.getElem?_set_eq hi']

theorem meshMaterialAt_setMeshMaterial_ne (s : St) (mid j i : Nat) (v : Material)
    (hij : i ≠ j) :
    meshMaterialAt (setMeshMaterial s mid j v) mid i = meshMaterialAt s mid i := by
  unfold meshMaterialAt getModelD
  rw [lookupModel_setMeshMaterial_self]
  cases lookupModel s mid with
  | none => rfl
  | some m =>
    cases hmi : m.meshInstances[j]? with
    | none => simp [hmi]
    | some mi => simp [hmi, List.getElem?_set_ne (fun h => hij h.symm)]

theorem meshLen_setMeshMaterial (s : St) (mid j : Nat) (v : Material) :
    meshLen (setMeshMaterial s mid j v) mid = meshLen s mid := by
  unfold meshLen getModelD
  rw [lookupModel_setMeshMaterial_self]
  cases lookupModel s mid with
  | none => rfl
  | some m => cases hmi : m.meshInstances[j]? <;> simp [hmi]

theorem ledgerSlot_setMaterialEvent_ne (s : St) (j : Nat) (ev id : String) (h : Handler)
    (i : Nat) (hij : i ≠ j) :
    ledgerSlot (setMaterialEvent s j ev id h) i = ledgerSlot s i := by
  unfold ledgerSlot setMaterialEvent
  simp only [Option.some_bind]
  rw [lookupA_updAssoc_ne j i _ _ hij]
  cases s._materialEvents <;> simp [lookupA]

/-- `handleMaterial` at mesh `j` does not change another mesh's material,
another slot's ledger entry, the mesh count, or any non-`mid` model; it
never touches the scene, the entity's children or the destroy trace. -/
theorem handleMaterial_frame (s : St) (a : Asset) (mid j : Nat) :
    (handleMaterial s a mid j).scene = s.scene ∧
    (handleMaterial s a mid j).entityChildren = s.entityChildren ∧
    (handleMaterial s a mid j).destroyed = s.destroyed ∧
    (handleMaterial s a mid j)._model = s._model ∧
    meshLen (handleMaterial s a mid j) mid = meshLen s mid ∧
    (∀ k, k ≠ mid → lookupModel (handleMaterial s a mid j) k = lookupModel s k) ∧
    (∀ i, i ≠ j → meshMaterialAt (handleMaterial s a mid j) mid i = meshMaterialAt s mid i) ∧
    (∀ i, i ≠ j → ledgerSlot (handleMaterial s a mid j) i = ledgerSlot s i) := by
  cases hres : a.resource with
  | some r =>
    simp only [handleMaterial, hres]
    refine ⟨rfl, rfl, rfl, rfl, ?_, ?_, ?_, ?_⟩
    · exact meshLen_setMeshMaterial s mid j (Material.res r.payload)
    · intro k hk
      exact lookupModel_setMeshMaterial_ne s mid j k (Material.res r.payload) hk
    · intro i hij
      exact meshMaterialAt_setMeshMaterial_ne s mid j i (Material.res r.payload) hij
    · intro i hij
      exact (ledgerSlot_setMaterialEvent_ne _ j "remove" (toString a.id) _ i hij).trans rfl
  | none =>
    simp only [handleMaterial, hres]
    split
    · refine ⟨rfl, rfl, rfl, rfl, rfl, fun k hk => rfl, fun i hij => rfl, ?_⟩
      intro i hij
      exact (ledgerSlot_setMaterialEvent_ne _ j "load" (toString a.id) _ i hij).trans rfl
    · refine ⟨rfl, rfl, rfl, rfl, rfl, fun k hk => rfl, fun i hij => rfl, ?_⟩
      intro i hij
      exact (ledgerSlot_setMaterialEvent_ne _ j "load" (toString a.id) _ i hij).trans rfl

/-- The frame of one iteration of the `mapping` setter's loop. -/
theorem mapStep_frame (nv : MapTable) (am : Option (List (Nat × AMapEntry))) (mid : Nat)
    (s : St) (j : Nat) :
    (mapStep nv am mid s j).scene = s.scene ∧
    (mapStep nv am mid s j).entityChildren = s.entityChildren ∧
    (mapStep nv am mid s j).destroyed = s.destroyed ∧
    (mapStep nv am mid s j)._model = s._model ∧
    meshLen (mapStep nv am mid s j) mid = meshLen s mid ∧
    (∀ k, k ≠ mid → lookupModel (mapStep nv am mid s j) k = lookupModel s k) ∧
    (∀ i, i ≠ j → meshMaterialAt (mapStep nv am mid s j) mid i = meshMaterialAt s mid i) ∧
    (∀ i, i ≠ j → ledgerSlot (mapStep nv am mid s j) i = ledgerSlot s i) := by
  have hsetM : ∀ (v : Material),
      (setMeshMaterial s mid j v).scene = s.scene ∧
      (setMeshMaterial s mid j v).entityChildren = s.entityChildren ∧
      (setMeshMaterial s mid j v).destroyed = s.destroyed ∧
      (setMeshMaterial s mid j v)._model = s._model ∧
      meshLen (setMeshMaterial s mid j v) mid = meshLen s mid ∧
      (∀ k, k ≠ mid → lookupModel (setMeshMaterial s mid j v) k = lookupModel s k) ∧
      (∀ i, i ≠ j → meshMaterialAt (setMeshMaterial s mid j v) mid i = meshMaterialAt s mid i) ∧
      (∀ i, i ≠ j → ledgerSlot (setMeshMaterial s mid j v) i = ledgerSlot s i) := by
    intro v
    refine ⟨rfl, rfl, rfl, rfl, meshLen_setMeshMaterial s mid j v,
      fun k hk => lookupModel_setMeshMaterial_ne s mid j k v hk,
      fun i hij => meshMaterialAt_setMeshMaterial_ne s mid j i v hij,
      fun i hij => rfl⟩
  have hload : ∀ (r : IdOrPath),
      (loadAndSetMeshInstanceMaterial s r mid j).scene = s.scene ∧
      (loadAndSetMeshInstanceMaterial s r mid j).entityChildren = s.entityChildren ∧
      (loadAndSetMeshInstanceMaterial s r mid j).destroyed = s.destroyed ∧
      (loadAndSetMeshInstanceMaterial s r mid j)._model = s._model ∧
      meshLen (loadAndSetMeshInstanceMaterial s r mid j) mid = meshLen s mid ∧
      (∀ k, k ≠ mid → lookupModel (loadAndSetMeshInstanceMaterial s r mid j) k = lookupModel s k) ∧
      (∀ i, i ≠ j →
        meshMaterialAt (loadAndSetMeshInstanceMaterial s r mid j) mid i = meshMaterialAt s mid i) ∧
      (∀ i, i ≠ j →
        ledgerSlot (loadAndSetMeshInstanceMaterial s r mid j) i = ledgerSlot s i) := by
    intro r
    cases hga : getAssetByIdOrPath s r with
    | none => simp [loadAndSetMeshInstanceMaterial, hga]
    | some a =>
      simpa only [loadAndSetMeshInstanceMaterial, hga] using handleMaterial_frame s a mid j
  cases hjn : lookupA j nv with
  | some entryVal =>
    cases entryVal with
    | some r => simpa only [mapStep, hjn] using hload r
    | none => simpa only [mapStep, hjn] using hsetM Material.defaultMat
  | none =>
    cases am with
    | some amt =>
      cases hja : lookupA j amt with
      | some e =>
        simp only [mapStep, hjn, hja]
        split
        · exact hload (matEntryRef e)
        · exact hsetM Material.defaultMat
      | none => simpa only [mapStep, hjn, hja] using hsetM Material.defaultMat
    | none => simp [mapStep, hjn]

/-- A mesh index with no explicit override and no (truthy) catalog-mapping
entry is assigned the process-wide default material by its loop step. -/
theorem mapStep_at_establishes (nv : MapTable) (amt : List (Nat × AMapEntry)) (mid i : Nat)
    (hnv : lookupA i nv = none)
    (ham : ∀ e, lookupA i amt = some e → amTruthyMaterial e = false ∧ amTruthyPath e = false) :
    ∀ s, mapStep nv (some amt) mid s i = setMeshMaterial s mid i Material.defaultMat := by
  intro s
  cases hja : lookupA i amt with
  | none => simp [mapStep, hnv, hja]
  | some e =>
    have he := ham e hja
    simp [mapStep, hnv, hja, he.1, he.2]

theorem foldl_mapStep_len (nv : MapTable) (am : Option (List (Nat × AMapEntry))) (mid : Nat) :
    ∀ (l : List Nat) (s : St),
      meshLen (l.foldl (mapStep nv am mid) s) mid = meshLen s mid := by
  intro l
  induction l with
  | nil => intro s; rfl
  | cons j t ih =>
    intro s
    rw [List.foldl_cons, ih]
    exact (mapStep_frame nv am mid s j).2.2.2.2.1

theorem foldl_mapStep_idx (nv : MapTable) (am : Option (List (Nat × AMapEntry))) (mid i : Nat) :
    ∀ (l : List Nat), i ∉ l → ∀ s : St,
      meshMaterialAt (l.foldl (mapStep nv am mid) s) mid i = meshMaterialAt s mid i ∧
      ledgerSlot (l.foldl (mapStep nv am mid) s) i = ledgerSlot s i := by
  intro l
  induction l with
  | nil => intro _ s; exact ⟨rfl, rfl⟩
  | cons j t ih =>
    intro hni s
    have hij : i ≠ j := fun h => hni (h ▸ List.mem_cons_self j t)
    have hnt : i ∉ t := fun h => hni (List.mem_cons_of_mem j h)
    rw [List.foldl_cons]
    obtain ⟨h1, h2⟩ := ih hnt (mapStep nv am mid s j)
    have frame := mapStep_frame nv am mid s j
    exact ⟨h1.trans (frame.2.2.2.2.2.2.1 i hij), h2.trans (frame.2.2.2.2.2.2.2 i hij)⟩

/-- The mapping loop over all mesh indices: an index with no explicit
override and no truthy catalog entry ends with the default material and no
ledger slot. -/
theorem foldl_mapStep_default (nv : MapTable) (amt : List (Nat × AMapEntry)) (mid i : Nat)
    (hnv : lookupA i nv = none)
    (ham : ∀ e, lookupA i amt = some e → amTruthyMaterial e = false ∧ amTruthyPath e = false) :
    ∀ (len : Nat) (s : St), i < len → i < meshLen s mid → ledgerSlot s i = none →
      meshMaterialAt ((List.range len).foldl (mapStep nv (some amt) mid) s) mid i
        = some Material.defaultMat ∧
      ledgerSlot ((List.range len).foldl (mapStep nv (some amt) mid) s) i = none := by
  intro len
  induction len with
  | zero => intro s h; exact absurd h (Nat.not_lt_zero i)
  | succ n ih =>
    intro s hlt hmesh hled
    rw [List.range_succ, List.foldl_append, List.foldl_cons, List.foldl_nil]
    by_cases hin : i = n
    · subst hin
      have hno : i ∉ List.range i := by simp [List.mem_range]
      obtain ⟨hm, hl⟩ := foldl_mapStep_idx nv (some amt) mid i (List.range i) hno s
      rw [mapStep_at_establishes nv amt mid i hnv ham]
      constructor
      · apply meshMaterialAt_setMeshMaterial_self
        rw [foldl_mapStep_len]
        exact hmesh
      · exact (hl.trans hled : ledgerSlot (setMeshMaterial _ mid i Material.defaultMat) i = none)
    · have hlt' : i < n := lt_of_le_of_ne (Nat.lt_succ_iff.mp hlt) hin
      obtain ⟨hm, hl⟩ := ih s hlt' hmesh hled
      have frame := mapStep_frame nv (some amt) mid ((List.range n).foldl (mapStep nv (some amt) mid) s) n
      exact ⟨(frame.2.2.2.2.2.2.1 i hin).trans hm, (frame.2.2.2.2.2.2.2 i hin).trans hl⟩

theorem innerFold_entries :
    ∀ (slot : List (String × MatEvt)) (as : Assets),
      (slot.foldl (fun acc2 kv => regOff acc2 kv.1 kv.2.handler) as).entries = as.entries := by
  intro slot
  induction slot with
  | nil => intro as; rfl
  | cons kv t ih =>
    intro as
    rw [List.foldl_cons, ih]
    rfl

theorem outerFold_entries :
    ∀ (events : Ledger) (as : Assets),
      (events.foldl
          (fun acc p => p.2.foldl (fun acc2 kv => regOff acc2 kv.1 kv.2.handler) acc)
          as).entries = as.entries := by
  intro events
  induction events with
  | nil => intro as; rfl
  | cons p t ih =>
    intro as
    rw [List.foldl_cons, ih, innerFold_entries]

/-- The teardown touches only registry subscriptions and the ledger. -/
theorem unsetMaterialEvents_frame (st : St) :
    (unsetMaterialEvents st).scene = st.scene ∧
    (unsetMaterialEvents st).entityChildren = st.entityChildren ∧
    (unsetMaterialEvents st).destroyed = st.destroyed ∧
    (unsetMaterialEvents st).models = st.models ∧
    (unsetMaterialEvents st)._model = st._model ∧
    (unsetMaterialEvents st)._asset = st._asset ∧
    (unsetMaterialEvents st)._type = st._type ∧
    (unsetMaterialEvents st).assets.entries = st.assets.entries ∧
    (unsetMaterialEvents st)._materialEvents = none := by
  cases hme : st._materialEvents with
  | none => simp [unsetMaterialEvents, hme]
  | some events => simp [unsetMaterialEvents, hme, outerFold_entries]

theorem Assets_get_congr (as as' : Assets) (n : Nat) (h : as'.entries = as.entries) :
    Assets.get as' n = Assets.get as n := by
  unfold Assets.get
  rw [h]

/-- C4 (amended): a mesh index of an `'asset'`-type component's bound model
that has no explicit override entry, **while the bound model asset declares
a `data.mapping` table** with no (truthy) entry for that index, receives the
process-wide default material immediately when the mapping is applied, and
its ledger slot stays empty (no pending subscription for that index). (As
frozen, the claim also promised the default when no catalog mapping table
exists at all; the counterexample shows the loop then leaves such meshes
untouched.) -/
theorem claim_C4_default_material_with_catalog_table (st : St) (mid i aid : Nat) (ma : Asset)
    (amt : List (Nat × AMapEntry)) (nv : MapTable)
    (ht : st._type = "asset") (hm : st._model = some mid)
    (hi : i < meshLen st mid)
    (hnv : lookupA i nv = none)
    (hasset : st._asset = some aid) (haid : aid ≠ 0)
    (hma : Assets.get st.assets aid = some ma)
    (hdm : ma.dataMapping = some amt)
    (ham : ∀ e, lookupA i amt = some e → amTruthyMaterial e = false ∧ amTruthyPath e = false) :
    meshMaterialAt (setMapping st (some nv)) mid i = some Material.defaultMat ∧
    ledgerSlot (setMapping st (some nv)) i = none := by
  have hframe := unsetMaterialEvents_frame
    { st with _type := "asset", _model := some mid, _mapping := some nv }
  have e_asset :
      (unsetMaterialEvents
        { st with _type := "asset", _model := some mid, _mapping := some nv })._asset
      = some aid := by
    rw [hframe.2.2.2.2.2.1]
    exact hasset
  have e_get :
      Assets.get (unsetMaterialEvents
        { st with _type := "asset", _model := some mid, _mapping := some nv }).assets aid
      = some ma := by
    exact (Assets_get_congr
      ({ st with _type := "asset", _model := some mid, _mapping := some nv } : St).assets _ aid
      hframe.2.2.2.2.2.2.2.1).trans hma
  have e_led :
      ledgerSlot (unsetMaterialEvents
        { st with _type := "asset", _model := some mid, _mapping := some nv }) i = none := by
    unfold ledgerSlot
    rw [hframe.2.2.2.2.2.2.2.2]
    rfl
  have e_len :
      meshLen (unsetMaterialEvents
        { st with _type := "asset", _model := some mid, _mapping := some nv }) mid
      = meshLen st mid := by
    exact meshLen_congr st _ mid hframe.2.2.2.1
  have hsm : setMapping st (some nv)
      = (List.range (meshLen (unsetMaterialEvents
            { st with _type := "asset", _model := some mid, _mapping := some nv }) mid)).foldl
          (mapStep nv (some amt) mid)
          (unsetMaterialEvents
            { st with _type := "asset", _model := some mid, _mapping := some nv }) := by
    simp [setMapping, ht, hm, jsTruthyNat, e_asset, haid, e_get, hdm, meshLen]
  rw [hsm]
  exact foldl_mapStep_default nv amt mid i hnv ham _ _
    (by rw [e_len]; exact hi) (by rw [e_len]; exact hi) e_led

/-- Witness for C4 (amended) on the concrete component whose model asset
declares an (empty) mapping table: mesh 0 gets the default material. -/
theorem claim_C4_witness :
    meshMaterialAt (setMapping stC4m (some [])) 1 0 = some Material.defaultMat ∧
    ledgerSlot (setMapping stC4m (some [])) 0 = none :=
  claim_C4_default_material_with_catalog_table stC4m 1 0 42 modelAsset42m [] []
    rfl rfl (by decide) rfl rfl (by decide) (by decide) rfl
    (fun e he => by simp [lookupA] at he)

/-! ## Frame lemmas for the model hot-swap path -/

theorem lookupModel_congr (s s' : St) (k : Nat) (h : s'.models = s.models) :
    lookupModel s' k = lookupModel s k := by
  unfold lookupModel
  rw [h]

theorem getModelD_graph_updModel (s : St) (kk k : Nat) (f : PcModel → PcModel)
    (hf : ∀ m, (f m).id = m.id ∧ (f m).graph = m.graph) :
    (getModelD (updModel s kk f) k).graph = (getModelD s k).graph := by
  by_cases h : k = kk
  · subst h
    unfold getModelD
    rw [lookupModel_updModel_self s k f (fun m => (hf m).1)]
    cases lookupModel s k with
    | none => rfl
    | some m => simp [(hf m).2]
  · unfold getModelD
    rw [lookupModel_updModel_ne s kk k f (fun m => (hf m).1) h]

theorem getModelD_entityRef_updModel_none (s : St) (oldId : Nat) :
    (getModelD (updModel s oldId (fun m => { m with entityRef := none })) oldId).entityRef
      = none := by
  unfold getModelD
  rw [lookupModel_updModel_self s oldId (fun m => { m with entityRef := none })
    (fun m => rfl)]
  cases lookupModel s oldId with
  | none => rfl
  | some m => rfl

theorem mem_addModel_drawn_ne (sc : Scene) (m x : Option Nat) (hx : x ≠ m) :
    (x ∈ (Scene.addModel sc m).drawn) ↔ x ∈ sc.drawn := by
  unfold Scene.addModel
  split
  · exact Iff.rfl
  · simp [hx]

theorem foldl_mapStep_frame (nv : MapTable) (am : Option (List (Nat × AMapEntry))) (mid : Nat) :
    ∀ (l : List Nat) (s : St),
      ((l.foldl (mapStep nv am mid) s).scene = s.scene) ∧
      ((l.foldl (mapStep nv am mid) s).entityChildren = s.entityChildren) ∧
      ((l.foldl (mapStep nv am mid) s).destroyed = s.destroyed) ∧
      (∀ k, k ≠ mid → lookupModel (l.foldl (mapStep nv am mid) s) k = lookupModel s k) := by
  intro l
  induction l with
  | nil => intro s; exact ⟨rfl, rfl, rfl, fun k hk => rfl⟩
  | cons j t ih =>
    intro s
    rw [List.foldl_cons]
    obtain ⟨h1, h2, h3, h4⟩ := ih (mapStep nv am mid s j)
    have fr := mapStep_frame nv am mid s j
    exact ⟨h1.trans fr.1, h2.trans fr.2.1, h3.trans fr.2.2.1,
      fun k hk => (h4 k hk).trans (fr.2.2.2.2.2.1 k hk)⟩

/-- Re-running the mapping resolver never touches the scene, the entity's
children, the destroy trace, or any model other than the bound one. -/
theorem setMapping_frame (s : St) (v : Option MapTable) :
    (setMapping s v).scene = s.scene ∧
    (setMapping s v).entityChildren = s.entityChildren ∧
    (setMapping s v).destroyed = s.destroyed ∧
    (∀ k, s._model ≠ some k → lookupModel (setMapping s v) k = lookupModel s k) := by
  cases hmo : s._model with
  | none =>
    simp only [setMapping, hmo]
    split <;> exact ⟨rfl, rfl, rfl, fun k hk => rfl⟩
  | some mid =>
    simp only [setMapping, hmo]
    split
    · exact ⟨rfl, rfl, rfl, fun k hk => rfl⟩
    · have hu := unsetMaterialEvents_frame { s with _mapping := v, _model := some mid }
      refine ⟨(foldl_mapStep_frame _ _ mid _ _).1.trans hu.1,
        (foldl_mapStep_frame _ _ mid _ _).2.1.trans hu.2.1,
        (foldl_mapStep_frame _ _ mid _ _).2.2.1.trans hu.2.2.1, ?_⟩
      intro k hk
      have hkm : k ≠ mid := fun h => hk (congrArg some h.symm)
      exact ((foldl_mapStep_frame _ _ mid _ _).2.2.2 k hkm).trans
        (lookupModel_congr s _ k hu.2.2.2.1)

/-- The `lightmapped` setter's frame: only `_lightmapped` and the bound
model's mesh data change. -/
theorem setLightmapped_frame (s : St) (v : Bool) :
    (setLightmapped s v).scene = s.scene ∧
    (setLightmapped s v).entityChildren = s.entityChildren ∧
    (setLightmapped s v).destroyed = s.destroyed ∧
    (setLightmapped s v)._model = s._model ∧
    (∀ k, s._model ≠ some k → lookupModel (setLightmapped s v) k = lookupModel s k) ∧
    (∀ k, (getModelD (setLightmapped s v) k).graph = (getModelD s k).graph) := by
  cases hmo : s._model with
  | none =>
    simp only [setLightmapped, hmo]
    refine ⟨trivial, trivial, trivial, trivial, ?_, ?_⟩ <;> intro k <;> intros <;> rfl
  | some mid =>
    simp only [setLightmapped, hmo]
    split
    · refine ⟨rfl, rfl, rfl, rfl, ?_, ?_⟩
      · intro k hk
        exact lookupModel_updModel_ne _ mid k _ (fun m => rfl)
          (fun h => hk (congrArg some h.symm))
      · intro k
        exact getModelD_graph_updModel _ mid k _ (fun m => ⟨rfl, rfl⟩)
    · refine ⟨rfl, rfl, rfl, rfl, ?_, ?_⟩
      · intro k hk
        exact lookupModel_updModel_ne _ mid k _ (fun m => rfl)
          (fun h => hk (congrArg some h.symm))
      · intro k
        exact getModelD_graph_updModel _ mid k _ (fun m => ⟨rfl, rfl⟩)

/-- The `isStatic` setter's frame. -/
theorem setIsStatic_frame (s : St) (v : Bool) :
    (setIsStatic s v).scene = s.scene ∧
    (setIsStatic s v).entityChildren = s.entityChildren ∧
    (setIsStatic s v).destroyed = s.destroyed ∧
    (setIsStatic s v)._model = s._model ∧
    (∀ k, s._model ≠ some k → lookupModel (setIsStatic s v) k = lookupModel s k) ∧
    (∀ k, (getModelD (setIsStatic s v) k).graph = (getModelD s k).graph) := by
  cases hmo : s._model with
  | none =>
    simp only [setIsStatic, hmo]
    refine ⟨trivial, trivial, trivial, trivial, ?_, ?_⟩ <;> intro k <;> intros <;> rfl
  | some mid =>
    simp only [setIsStatic, hmo]
    refine ⟨rfl, rfl, rfl, rfl, ?_, ?_⟩
    · intro k hk
      exact lookupModel_updModel_ne _ mid k _ (fun m => rfl)
        (fun h => hk (congrArg some h.symm))
    · intro k
      exact getModelD_graph_updModel _ mid k _ (fun m => ⟨rfl, rfl⟩)

/-- What the detach half of the `model` setter does to the old instance:
removed from the draw set, its root erased from the entity's children, its
`_entity` back-reference cleared, destroyed exactly when `_clonedModel` was
set; every model's root graph node is untouched. -/
theorem detachOld_spec (s : St) (oldId : Nat) :
    (some oldId ∉ (detachOld s (some oldId)).scene.drawn) ∧
    ((detachOld s (some oldId)).entityChildren
      = s.entityChildren.erase ((getModelD s oldId).graph)) ∧
    ((getModelD (detachOld s (some oldId)) oldId).entityRef = none) ∧
    ((detachOld s (some oldId)).destroyed
      = if s._clonedModel then s.destroyed ++ [oldId] else s.destroyed) ∧
    ((detachOld s (some oldId))._model = s._model) ∧
    (∀ k, (getModelD (detachOld s (some oldId)) k).graph = (getModelD s k).graph) := by
  simp only [detachOld]
  split
  · refine ⟨?_, rfl, ?_, ?_, rfl, ?_⟩
    · simp [Scene.removeModel, updModel]
    · exact getModelD_entityRef_updModel_none _ oldId
    · rename_i hcm
      have hcm2 : s._clonedModel = true := hcm
      rw [if_pos hcm2]
      rfl
    · intro k
      exact getModelD_graph_updModel _ oldId k _ (fun m => ⟨rfl, rfl⟩)
  · refine ⟨?_, rfl, ?_, ?_, rfl, ?_⟩
    · simp [Scene.removeModel, updModel]
    · exact getModelD_entityRef_updModel_none _ oldId
    · rename_i hcm
      have hcm2 : ¬(s._clonedModel = true) := hcm
      rw [if_neg hcm2]
      rfl
    · intro k
      exact getModelD_graph_updModel _ oldId k _ (fun m => ⟨rfl, rfl⟩)

/-- What the attach half of the `model` setter leaves untouched: draw-set
membership of every other instance, absence of foreign graph nodes from the
children, the destroy trace, and every other model. -/
theorem attachNew_frame (s : St) (newId : Nat) (hm : s._model = some newId) :
    (∀ x, x ≠ some newId → ((x ∈ (attachNew s newId).scene.drawn) ↔ x ∈ s.scene.drawn)) ∧
    (∀ g, g ∉ s.entityChildren → g ≠ (getModelD s newId).graph →
      g ∉ (attachNew s newId).entityChildren) ∧
    ((attachNew s newId).destroyed = s.destroyed) ∧
    (∀ k, k ≠ newId → lookupModel (attachNew s newId) k = lookupModel s k) := by
  simp only [attachNew]
  set s1 := mapMeshes s newId (fun mi =>
    { mi with castShadow := s._castShadows, receiveShadow := s._receiveShadows }) with hs1
  have hm1 : s1._model = some newId := hm
  have f1scene : s1.scene = s.scene := rfl
  have f1children : s1.entityChildren = s.entityChildren := rfl
  have f1destroyed : s1.destroyed = s.destroyed := rfl
  have f1lookup : ∀ k, k ≠ newId → lookupModel s1 k = lookupModel s k := by
    intro k hk
    exact lookupModel_updModel_ne s newId k _ (fun m => rfl) hk
  have f1graph : ∀ k, (getModelD s1 k).graph = (getModelD s k).graph := by
    intro k
    exact getModelD_graph_updModel s newId k _ (fun m => ⟨rfl, rfl⟩)
  set s2 := setLightmapped s1 s1._lightmapped with hs2
  have f2 := setLightmapped_frame s1 s1._lightmapped
  have hm2 : s2._model = some newId := f2.2.2.2.1.trans hm1
  set s3 := setIsStatic s2 s2._isStatic with hs3
  have f3 := setIsStatic_frame s2 s2._isStatic
  have hm3 : s3._model = some newId := f3.2.2.2.1.trans hm2
  have hlookup3 : ∀ k, k ≠ newId → lookupModel s3 k = lookupModel s k := by
    intro k hk
    have h2 : s2._model ≠ some k := by rw [hm2]; simp [Ne.symm hk]
    have h1 : s1._model ≠ some k := by rw [hm1]; simp [Ne.symm hk]
    exact ((f3.2.2.2.2.1 k h2).trans (f2.2.2.2.2.1 k h1)).trans (f1lookup k hk)
  have hgraph3 : ∀ k, (getModelD s3 k).graph = (getModelD s k).graph := by
    intro k
    exact ((f3.2.2.2.2.2 k).trans (f2.2.2.2.2.2 k)).trans (f1graph k)
  have hchildren3 : s3.entityChildren = s.entityChildren :=
    (f3.2.1.trans f2.2.1).trans f1children
  have hscene3 : s3.scene = s.scene := (f3.1.trans f2.1).trans f1scene
  have hdestroyed3 : s3.destroyed = s.destroyed :=
    (f3.2.2.1.trans f2.2.2.1).trans f1destroyed
  set s4 := ({ s3 with entityChildren := s3.entityChildren ++ [(getModelD s3 newId).graph] } : St)
    with hs4
  set s5 := (if s4.enabled ∧ s4.entityEnabled then
      { s4 with scene := Scene.addModel s4.scene (some newId) } else s4) with hs5
  have h5children : s5.entityChildren = s4.entityChildren := by
    rw [hs5]; split <;> rfl
  have h5destroyed : s5.destroyed = s4.destroyed := by
    rw [hs5]; split <;> rfl
  have h5models : s5.models = s4.models := by
    rw [hs5]; split <;> rfl
  have h5model : s5._model = s4._model := by
    rw [hs5]; split <;> rfl
  have h5drawn : ∀ x, x ≠ some newId → ((x ∈ s5.scene.drawn) ↔ x ∈ s4.scene.drawn) := by
    intro x hx
    rw [hs5]
    split
    · exact mem_addModel_drawn_ne s4.scene (some newId) x hx
    · exact Iff.rfl
  set s6 := updModel s5 newId (fun m => { m with entityRef := some s5.entityId }) with hs6
  have h6lookup : ∀ k, k ≠ newId → lookupModel s6 k = lookupModel s5 k := by
    intro k hk
    exact lookupModel_updModel_ne s5 newId k _ (fun m => rfl) hk
  set s7 := (if s6.hasAnimation then { s6 with animCalls := s6.animCalls ++ [some newId] }
    else s6) with hs7
  have h7scene : s7.scene = s6.scene := by rw [hs7]; split <;> rfl
  have h7children : s7.entityChildren = s6.entityChildren := by rw [hs7]; split <;> rfl
  have h7destroyed : s7.destroyed = s6.destroyed := by rw [hs7]; split <;> rfl
  have h7models : s7.models = s6.models := by rw [hs7]; split <;> rfl
  have h7model : s7._model = s6._model := by rw [hs7]; split <;> rfl
  have hm7 : s7._model = some newId := by
    rw [h7model, hs6]
    show s5._model = some newId
    rw [h5model]
    exact hm3
  constructor
  · intro x hx
    split
    · have hf := setMapping_frame s7 s7._mapping
      rw [hf.1, h7scene]
      show (x ∈ s5.scene.drawn) ↔ x ∈ s.scene.drawn
      rw [h5drawn x hx]
      show (x ∈ s3.scene.drawn) ↔ x ∈ s.scene.drawn
      rw [hscene3]
    · have hf := unsetMaterialEvents_frame s7
      rw [hf.1, h7scene]
      show (x ∈ s5.scene.drawn) ↔ x ∈ s.scene.drawn
      rw [h5drawn x hx]
      show (x ∈ s3.scene.drawn) ↔ x ∈ s.scene.drawn
      rw [hscene3]
  constructor
  · intro g hgmem hgne
    have hch : ∀ u : St, u.entityChildren = s4.entityChildren → g ∉ u.entityChildren := by
      intro u hu
      rw [hu, hs4]
      show g ∉ s3.entityChildren ++ [(getModelD s3 newId).graph]
      rw [List.mem_append]
      rintro (h | h)
      · rw [hchildren3] at h
        exact hgmem h
      · rw [List.mem_singleton] at h
        rw [hgraph3 newId] at h
        exact hgne h
    split
    · have hf := setMapping_frame s7 s7._mapping
      exact hch _ (hf.2.1.trans (h7children.trans (by rw [hs6]; exact h5children)))
    · have hf := unsetMaterialEvents_frame s7
      exact hch _ (hf.2.1.trans (h7children.trans (by rw [hs6]; exact h5children)))
  constructor
  · split
    · have hf := setMapping_frame s7 s7._mapping
      rw [hf.2.2.1, h7destroyed]
      show s5.destroyed = s.destroyed
      rw [h5destroyed]
      show s3.destroyed = s.destroyed
      exact hdestroyed3
    · have hf := unsetMaterialEvents_frame s7
      rw [hf.2.2.1, h7destroyed]
      show s5.destroyed = s.destroyed
      rw [h5destroyed]
      show s3.destroyed = s.destroyed
      exact hdestroyed3
  · intro k hk
    have htail : lookupModel s6 k = lookupModel s k := by
      rw [h6lookup k hk]
      have : lookupModel s5 k = lookupModel s4 k := lookupModel_congr s4 s5 k h5models
      rw [this]
      show lookupModel s3 k = lookupModel s k
      exact hlookup3 k hk
    split
    · have hf := setMapping_frame s7 s7._mapping
      have h7m : s7._model ≠ some k := by
        rw [hm7]
        simp [Ne.symm hk]
      exact ((hf.2.2.2 k h7m).trans (lookupModel_congr s6 s7 k h7models)).trans htail
    · have hf := unsetMaterialEvents_frame s7
      exact ((lookupModel_congr s7 _ k hf.2.2.2.1).trans
        (lookupModel_congr s6 s7 k h7models)).trans htail

/-- C1: the model hot-swap. When a component holding an old instance has its
`model` property set (to a new, distinct instance or to `null`), the old
instance ends up out of the scene's draw set, its root graph node is no
longer a child of the owning entity, its `_entity` back-reference is
cleared, and it is destroyed exactly once if and only if it was a private
clone (`_clonedModel`) — a catalog-owned (non-cloned) instance is never
destroyed (the destroy trace is unchanged). -/
theorem claim_C1_model_hot_swap (st : St) (oldId : Nat) (newV : Option Nat)
    (hold : st._model = some oldId)
    (hne : ∀ n, newV = some n → n ≠ oldId)
    (hg : ∀ n, newV = some n → (getModelD st n).graph ≠ (getModelD st oldId).graph)
    (hcnt : st.entityChildren.count ((getModelD st oldId).graph) ≤ 1) :
    (some oldId ∉ (setModel st newV).scene.drawn) ∧
    ((getModelD st oldId).graph ∉ (setModel st newV).entityChildren) ∧
    ((getModelD (setModel st newV) oldId).entityRef = none) ∧
    ((setModel st newV).destroyed
      = if st._clonedModel then st.destroyed ++ [oldId] else st.destroyed) := by
  have herase : (getModelD st oldId).graph
      ∉ st.entityChildren.erase ((getModelD st oldId).graph) := by
    apply List.count_eq_zero.mp
    rw [List.count_erase_self]
    omega
  cases newV with
  | none =>
    simp only [setModel, hold]
    have hd := detachOld_spec { st with _model := (none : Option Nat) } oldId
    have hu := unsetMaterialEvents_frame (detachOld { st with _model := (none : Option Nat) } (some oldId))
    refine ⟨?_, ?_, ?_, ?_⟩
    · rw [hu.1]
      exact hd.1
    · rw [hu.2.1, hd.2.1]
      exact herase
    · rw [getModelD_models_eq _ _ oldId hu.2.2.2.1]
      exact hd.2.2.1
    · rw [hu.2.2.1]
      exact hd.2.2.2.1
  | some newId =>
    have hne' : newId ≠ oldId := hne newId rfl
    have hg' : (getModelD st newId).graph ≠ (getModelD st oldId).graph := hg newId rfl
    simp only [setModel, hold]
    have hd := detachOld_spec { st with _model := some newId } oldId
    have hmD : (detachOld { st with _model := some newId } (some oldId))._model = some newId :=
      hd.2.2.2.2.1
    have ha := attachNew_frame (detachOld { st with _model := some newId } (some oldId))
      newId hmD
    refine ⟨?_, ?_, ?_, ?_⟩
    · rw [ha.1 (some oldId) (fun h => hne' (Option.some.inj h).symm)]
      exact hd.1
    · apply ha.2.1
      · rw [hd.2.1]
        exact herase
      · rw [hd.2.2.2.2.2 newId]
        exact Ne.symm hg'
    · have hgd : getModelD (attachNew (detachOld { st with _model := some newId } (some oldId))
          newId) oldId
          = getModelD (detachOld { st with _model := some newId } (some oldId)) oldId := by
        unfold getModelD
        rw [ha.2.2.2 oldId (Ne.symm hne')]
      rw [hgd]
      exact hd.2.2.1
    · rw [ha.2.2.1]
      exact hd.2.2.2.1

/-- Witness for C1: swapping the private clone `A` for `null` destroys it
exactly once, detaches its root and removes it from the scene. -/
theorem claim_C1_witness :
    (some 1 ∉ (setModel stC1 none).scene.drawn) ∧
    ((getModelD stC1 1).graph ∉ (setModel stC1 none).entityChildren) ∧
    ((getModelD (setModel stC1 none) 1).entityRef = none) ∧
    ((setModel stC1 none).destroyed
      = if stC1._clonedModel then stC1.destroyed ++ [1] else stC1.destroyed) :=
  claim_C1_model_hot_swap stC1 1 none rfl
    (fun n h => Option.noConfusion h) (fun n h => Option.noConfusion h) (by decide)

/-! ## Material preservation along the primitive-type construction path -/

theorem matsAt_congr (s s' : St) (k : Nat) (h : s'.models = s.models) :
    matsAt s' k = matsAt s k := by
  unfold matsAt getModelD lookupModel
  rw [h]

theorem matsAt_updModel (s : St) (kk k : Nat) (f : PcModel → PcModel)
    (hid : ∀ m, (f m).id = m.id)
    (hmats : ∀ m, (f m).meshInstances.map (fun mi => mi.material)
      = m.meshInstances.map (fun mi => mi.material)) :
    matsAt (updModel s kk f) k = matsAt s k := by
  by_cases h : k = kk
  · subst h
    unfold matsAt getModelD
    rw [lookupModel_updModel_self s k f hid]
    cases lookupModel s k with
    | none => rfl
    | some m => exact hmats m
  · unfold matsAt getModelD
    rw [lookupModel_updModel_ne s kk k f hid h]

theorem matsAt_mapMeshes (s : St) (mid k : Nat) (g : MeshInstance → MeshInstance)
    (hg : ∀ mi, (g mi).material = mi.material) :
    matsAt (mapMeshes s mid g) k = matsAt s k := by
  apply matsAt_updModel
  · intro m; rfl
  · intro m
    rw [List.map_map]
    exact List.map_congr_left (fun mi _ => hg mi)

theorem setLightmapped_matsAt (s : St) (v : Bool) (k : Nat) :
    matsAt (setLightmapped s v) k = matsAt s k := by
  cases hmo : s._model with
  | none =>
    simp only [setLightmapped, hmo]
    exact matsAt_congr s _ k rfl
  | some mid =>
    simp only [setLightmapped, hmo]
    split
    · exact matsAt_mapMeshes _ mid k _ (fun mi => rfl)
    · exact matsAt_mapMeshes _ mid k _ (fun mi => rfl)

theorem setLightmapped_type (s : St) (v : Bool) :
    (setLightmapped s v)._type = s._type := by
  cases hmo : s._model with
  | none => simp only [setLightmapped, hmo]
  | some mid =>
    simp only [setLightmapped, hmo]
    split <;> rfl

theorem setIsStatic_matsAt (s : St) (v : Bool) (k : Nat) :
    matsAt (setIsStatic s v) k = matsAt s k := by
  cases hmo : s._model with
  | none =>
    simp only [setIsStatic, hmo]
    exact matsAt_congr s _ k rfl
  | some mid =>
    simp only [setIsStatic, hmo]
    exact matsAt_mapMeshes _ mid k _ (fun mi => rfl)

theorem setIsStatic_type (s : St) (v : Bool) :
    (setIsStatic s v)._type = s._type := by
  cases hmo : s._model with
  | none => simp only [setIsStatic, hmo]
  | some mid =>
    simp only [setIsStatic, hmo]
    rfl

theorem detachOld_matsAt (s : St) (ov : Option Nat) (k : Nat) :
    matsAt (detachOld s ov) k = matsAt s k := by
  cases ov with
  | none => rfl
  | some oldId =>
    simp only [detachOld]
    split
    · exact (matsAt_congr _ _ k rfl).trans
        (matsAt_updModel _ oldId k _ (fun m => rfl) (fun m => rfl))
    · exact matsAt_updModel _ oldId k _ (fun m => rfl) (fun m => rfl)

theorem detachOld_model (s : St) (ov : Option Nat) :
    (detachOld s ov)._model = s._model := by
  cases ov with
  | none => rfl
  | some oldId =>
    simp only [detachOld]
    split <;> rfl

theorem detachOld_type (s : St) (ov : Option Nat) :
    (detachOld s ov)._type = s._type := by
  cases ov with
  | none => rfl
  | some oldId =>
    simp only [detachOld]
    split <;> rfl

/-- The attach half of the `model` setter, on a non-`'asset'`-type component,
keeps the new model bound and leaves the materials of its meshes unchanged
(the flag passes touch only shadow/static/lightmap flags). -/
theorem attachNew_materials (s : St) (newId : Nat) (hm : s._model = some newId)
    (ht : s._type ≠ "asset") :
    ((attachNew s newId)._model = s._model) ∧
    ((attachNew s newId)._type = s._type) ∧
    (matsAt (attachNew s newId) newId = matsAt s newId) := by
  simp only [attachNew]
  set s1 := mapMeshes s newId (fun mi =>
    { mi with castShadow := s._castShadows, receiveShadow := s._receiveShadows }) with hs1
  have mats1 : matsAt s1 newId = matsAt s newId :=
    matsAt_mapMeshes s newId newId _ (fun mi => rfl)
  have hm1 : s1._model = some newId := hm
  set s2 := setLightmapped s1 s1._lightmapped with hs2
  have f2 := setLightmapped_frame s1 s1._lightmapped
  have mats2 : matsAt s2 newId = matsAt s newId :=
    (setLightmapped_matsAt s1 s1._lightmapped newId).trans mats1
  have hm2 : s2._model = some newId := f2.2.2.2.1.trans hm1
  have ht2 : s2._type = s._type := setLightmapped_type s1 s1._lightmapped
  set s3 := setIsStatic s2 s2._isStatic with hs3
  have f3 := setIsStatic_frame s2 s2._isStatic
  have mats3 : matsAt s3 newId = matsAt s newId :=
    (setIsStatic_matsAt s2 s2._isStatic newId).trans mats2
  have hm3 : s3._model = some newId := f3.2.2.2.1.trans hm2
  have ht3 : s3._type = s._type := (setIsStatic_type s2 s2._isStatic).trans ht2
  set s4 := ({ s3 with entityChildren := s3.entityChildren ++ [(getModelD s3 newId).graph] } : St)
    with hs4
  set s5 := (if s4.enabled ∧ s4.entityEnabled then
      { s4 with scene := Scene.addModel s4.scene (some newId) } else s4) with hs5
  have h5models : s5.models = s4.models := by rw [hs5]; split <;> rfl
  have h5model : s5._model = s4._model := by rw [hs5]; split <;> rfl
  have h5type : s5._type = s4._type := by rw [hs5]; split <;> rfl
  set s6 := updModel s5 newId (fun m => { m with entityRef := some s5.entityId }) with hs6
  have mats6 : matsAt s6 newId = matsAt s newId := by
    rw [hs6]
    refine (matsAt_updModel s5 newId newId (fun m => { m with entityRef := some s5.entityId }) (fun m => rfl) (fun m => rfl)).trans ?_
    refine (matsAt_congr s4 s5 newId h5models).trans ?_
    exact (matsAt_congr s3 s4 newId rfl).trans mats3
  have hm6 : s6._model = some newId := by
    rw [hs6]
    show s5._model = some newId
    rw [h5model]
    show s3._model = some newId
    exact hm3
  have ht6 : s6._type = s._type := by
    rw [hs6]
    show s5._type = s._type
    rw [h5type]
    show s3._type = s._type
    exact ht3
  set s7 := (if s6.hasAnimation then { s6 with animCalls := s6.animCalls ++ [some newId] }
    else s6) with hs7
  have h7models : s7.models = s6.models := by rw [hs7]; split <;> rfl
  have h7model : s7._model = s6._model := by rw [hs7]; split <;> rfl
  have h7type : s7._type = s6._type := by rw [hs7]; split <;> rfl
  have ht7 : ¬(s7._type = "asset") := by
    rw [h7type, ht6]
    exact ht
  rw [if_neg ht7]
  have hu := unsetMaterialEvents_frame s7
  refine ⟨?_, ?_, ?_⟩
  · rw [hu.2.2.2.2.1, h7model, hm6, hm]
  · rw [hu.2.2.2.2.2.2.1, h7type]
    exact ht6
  · exact ((matsAt_congr s7 _ newId hu.2.2.2.1).trans
      (matsAt_congr s6 s7 newId h7models)).trans mats6

/-- The `model` setter, handed a fresh instance on a non-`'asset'`-type
component, binds the instance and leaves its mesh materials unchanged. -/
theorem setModel_some_props (s : St) (newId : Nat) (ht : s._type ≠ "asset") :
    ((setModel s (some newId))._model = some newId) ∧
    ((setModel s (some newId))._type = s._type) ∧
    (matsAt (setModel s (some newId)) newId = matsAt s newId) := by
  simp only [setModel]
  have hdm : (detachOld { s with _model := some newId } s._model)._model = some newId :=
    detachOld_model _ s._model
  have hdt : (detachOld { s with _model := some newId } s._model)._type = s._type :=
    detachOld_type _ s._model
  have ha := attachNew_materials (detachOld { s with _model := some newId } s._model)
    newId hdm (by rw [hdt]; exact ht)
  exact ⟨ha.1.trans hdm, ha.2.1.trans hdt,
    ha.2.2.trans (detachOld_matsAt _ s._model newId)⟩

set_option maxHeartbeats 2000000 in
/-- `_onModelAsset(null)` touches only registry/asset subscriptions and the
dirty/old-id bookkeeping. -/
theorem onModelAsset_none_frame (st : St) :
    (onModelAsset st none).models = st.models ∧
    (onModelAsset st none)._model = st._model := by
  by_cases h : st._assetOld ≠ 0
  · simp only [onModelAsset, if_pos h]
    cases hg : Assets.get (regOff st.assets ("add:" ++ toString st._assetOld)
        Handler.onModelAsset) st._assetOld with
    | some assetOld =>
      simp only [hg]
      exact ⟨rfl, rfl⟩
    | none =>
      simp only [hg]
      exact ⟨trivial, trivial⟩
  · simp only [onModelAsset, if_neg h]
    exact ⟨trivial, trivial⟩

theorem setModelAsset_none_frame (s : St) :
    ((setModelAsset s none).models = s.models) ∧
    ((setModelAsset s none)._model = s._model) := by
  have hje : jsEqNum s._assetOld none = false := rfl
  simp only [setModelAsset, hje, if_neg Bool.false_ne_true]
  exact ⟨(onModelAsset_none_frame _).1, (onModelAsset_none_frame _).2⟩

/-- Clearing the `asset` property on a non-`'asset'`-type component leaves
the model heap and the bound model untouched. -/
theorem setAsset_null_nonasset (s : St) (h : s._type ≠ "asset") :
    ((setAsset s AssetVal.null).models = s.models) ∧
    ((setAsset s AssetVal.null)._model = s._model) := by
  simp only [setAsset, if_neg h]
  constructor
  · rw [(setModelAsset_none_frame _).1]
    split <;> rfl
  · rw [(setModelAsset_none_frame _).2]
    split <;> rfl

theorem systemMesh_not_prim (v : String) (h : v ∉ primTypes) : systemMesh v = none := by
  unfold systemMesh
  split <;> simp_all [primTypes]

theorem systemMesh_prim (v : String) (h : v ∈ primTypes) : systemMesh v = some v := by
  simp only [primTypes, List.mem_cons, List.not_mem_nil, or_false] at h
  rcases h with rfl | rfl | rfl | rfl | rfl | rfl <;> rfl

theorem lookupModel_append_fresh (l : List PcModel) (m : PcModel)
    (h : ∀ x, x ∈ l → x.id ≠ m.id) :
    (l ++ [m]).find? (fun x => x.id = m.id) = some m := by
  induction l with
  | nil => simp
  | cons a t ih =>
    rw [List.cons_append, List.find?_cons_of_neg]
    · exact ih (fun x hx => h x (List.mem_cons_of_mem a hx))
    · simpa using h a (List.mem_cons_self a t)

theorem matsAt_append_model (s : St) (m : PcModel)
    (h : ∀ x, x ∈ s.models → x.id ≠ m.id) :
    matsAt { s with models := s.models ++ [m] } m.id
      = m.meshInstances.map (fun mi => mi.material) := by
  unfold matsAt getModelD lookupModel
  show (((s.models ++ [m]).find? (fun x => x.id = m.id)).getD
    { id := m.id, graph := 0, meshInstances := [], entityRef := none }).meshInstances.map
      (fun mi => mi.material) = m.meshInstances.map (fun mi => mi.material)
  rw [lookupModel_append_fresh s.models m h]
  rfl

/-- The tail of the primitive-type path: assigning the freshly built model
and clearing the asset reference keeps it bound with its materials. -/
theorem setType_prim_tail (a : St) (newId : Nat) (hA : a._type ≠ "asset") :
    ((setAsset (setModel a (some newId)) AssetVal.null)._model = some newId) ∧
    (matsAt (setAsset (setModel a (some newId)) AssetVal.null) newId = matsAt a newId) := by
  have hsp := setModel_some_props a newId hA
  have hty : (setModel a (some newId))._type ≠ "asset" := by
    rw [hsp.2.1]
    exact hA
  have hnn := setAsset_null_nonasset (setModel a (some newId)) hty
  exact ⟨hnn.2.trans hsp.1, (matsAt_congr _ _ newId hnn.1).trans hsp.2.2⟩

/-- C7 (amended): the `type` setter's validation fires only for *truthy*
unrecognized values — any non-empty string outside the recognized set
`{asset, box, capsule, cone, cylinder, sphere, plane}` throws
`Invalid model type` after `_type` was already overwritten (the empty
string, being falsy, is silently accepted: see the companion
counterexample). Setting the type to a recognized primitive shape never
throws: it constructs a fresh single-mesh model, binds it as `_model`, and
the materials of that model's meshes are exactly `[this._material]`, the
component's current whole-component material. -/
theorem claim_C7_type_validation (st : St) (v : String) :
    (v ∉ recognizedTypes → v ≠ "" →
      setType st v
        = Except.error ("Invalid model type: " ++ v, { st with _type := v, _area := none })) ∧
    (v ∈ primTypes → (∀ m, m ∈ st.models → m.id ≠ st.fresh + 1) →
      ∃ st2, setType st v = Except.ok st2 ∧ st2._model = some (st.fresh + 1) ∧
        matsAt st2 (st.fresh + 1) = [st._material]) := by
  constructor
  · intro hnr hne
    have hna : v ≠ "asset" := fun h => hnr (h ▸ List.mem_cons_self _ _)
    have hnp : v ∉ primTypes := fun h => hnr (List.mem_cons_of_mem _ h)
    have hsm : systemMesh v = none := systemMesh_not_prim v hnp
    simp only [setType]
    rw [if_neg hne, if_neg hna, hsm]
  · intro hp hfresh
    have hne : v ≠ "" := by
      intro h
      subst h
      exact absurd hp (by decide)
    have hna : v ≠ "asset" := by
      intro h
      subst h
      exact absurd hp (by decide)
    have hsm : systemMesh v = some v := systemMesh_prim v hp
    simp only [setType]
    rw [if_neg hne, if_neg hna, hsm]
    refine ⟨_, rfl, ?_, ?_⟩
    · exact (setType_prim_tail _ (st.fresh + 1) hna).1
    · refine ((setType_prim_tail _ (st.fresh + 1) hna).2).trans ?_
      exact matsAt_append_model { st with _type := v, _area := some v, fresh := st.fresh + 2 }
        { id := st.fresh + 1, graph := st.fresh, meshInstances := [{ castShadow := false, receiveShadow := true, material := st._material, visible := true, isStatic := false, mask := MASK_DYNAMIC, shaderDefsLM := false, lightMapParams := false, srcMesh := v }], entityRef := none }
        (fun x hx => hfresh x hx)

/-- Witness for C7 (amended): `'fish'` throws with `_type` already mutated;
`'sphere'` builds and binds a fresh one-mesh model carrying the component's
material. -/
theorem claim_C7_amended_witness :
    (setType base "fish"
      = Except.error ("Invalid model type: " ++ "fish", { base with _type := "fish", _area := none })) ∧
    (∃ st2, setType base "sphere" = Except.ok st2 ∧ st2._model = some (base.fresh + 1) ∧
      matsAt st2 (base.fresh + 1) = [base._material]) :=
  ⟨(claim_C7_type_validation base "fish").1 (by decide) (by decide),
   (claim_C7_type_validation base "sphere").2 (by decide) (fun m hm => by simp [base] at hm)⟩

end EngineModel
